import Mathlib

/-!
Verification of the CSV-analysis tools and REST layer of the
llm-researcher repository.

The Python source in
`src/llm_researcher/src/llm_researcher/tools/custom_tool.py` defines two
pandas-based tools, `RawDataAccessTool` and `OptimizedCSVAnalysisTool`.
We give a shallow embedding of their behaviour:

* a pandas `DataFrame` is modelled column-oriented as an association list
  from column names to lists of cells;
* a cell is a rational number, a string, a calendar date, or `na`
  (pandas `NaN`/`NaT`); machine floats are modelled by exact rationals,
  and the few places where an irrational value (a square root) is
  rendered to a fixed number of decimals are computed by exact integer
  square-root rounding;
* Python exceptions are modelled by `Except String`; the `try/except`
  blocks of `_run` catch them and format the message exactly as the
  source does;
* the filesystem is a function from paths to file contents, where a file
  can be absent, unreadable (any `pd.read_csv`/parse failure), or a
  readable CSV that parses to a dataframe.
-/

namespace LlmResearcher

/-- Calendar date, modelling a pandas `Timestamp` at day granularity
(the dataset's `date` column carries no time of day). -/
structure Date where
  year : Nat
  month : Nat
  day : Nat
deriving DecidableEq, Repr

/-- Lexicographic comparison of dates, matching `Timestamp` ordering. -/
def Date.leb (a b : Date) : Bool :=
  if a.year ≠ b.year then a.year < b.year
  else if a.month ≠ b.month then a.month < b.month
  else a.day ≤ b.day

/-- A cell of a dataframe: numeric (`int64`/`float64` values are both
modelled as exact rationals), string (`object` dtype), datetime, or
missing (`NaN`/`NaT`). -/
inductive Cell where
  | num (q : ℚ)
  | str (s : String)
  | date (d : Date)
  | na
deriving DecidableEq, Repr

def Cell.isNa : Cell → Bool
  | .na => true
  | _ => false

def Cell.toNum? : Cell → Option ℚ
  | .num q => some q
  | _ => none

def Cell.toDate? : Cell → Option Date
  | .date d => some d
  | _ => none

/-- A pandas dataframe, column-oriented: ordered association list from
column name to the column's cells.  A well-formed frame is rectangular
with distinct column names (pandas guarantees both after `read_csv`). -/
structure DataFrame where
  cols : List (String × List Cell)
deriving DecidableEq, Repr

namespace DataFrame

/-- `df.columns` -/
def colNames (df : DataFrame) : List String := df.cols.map Prod.fst

/-- `df[c]`, `none` when the column is missing (pandas `KeyError`). -/
def getCol? (df : DataFrame) (c : String) : Option (List Cell) :=
  (df.cols.find? (fun p => p.1 = c)).map Prod.snd

/-- `df[c]` with the empty column as default (only used where
well-formedness guarantees presence). -/
def getColD (df : DataFrame) (c : String) : List Cell :=
  (df.getCol? c).getD []

/-- `len(df)`: number of rows (length of the first column; a well-formed
frame is rectangular). -/
def nRows (df : DataFrame) : Nat :=
  match df.cols with
  | [] => 0
  | c :: _ => c.2.length

/-- `len(df.columns)` -/
def nCols (df : DataFrame) : Nat := df.cols.length

/-- `df[c] = vals`: replace the column in place when it exists, else
append it at the end (pandas column-assignment semantics). -/
def setCol (df : DataFrame) (c : String) (vals : List Cell) : DataFrame :=
  if (df.cols.find? (fun p => p.1 = c)).isSome then
    ⟨df.cols.map (fun p => if p.1 = c then (p.1, vals) else p)⟩
  else
    ⟨df.cols ++ [(c, vals)]⟩

/-- `df.head n` -/
def head (df : DataFrame) (n : Nat) : DataFrame :=
  ⟨df.cols.map (fun p => (p.1, p.2.take n))⟩

/-- The cell at row `i` of column `c` (default `na` out of range; a
well-formed frame never goes out of range). -/
def cell (df : DataFrame) (c : String) (i : Nat) : Cell :=
  (df.getColD c).getD i Cell.na

/-- Rectangular with distinct column names: what `pd.read_csv` always
produces. -/
def WF (df : DataFrame) : Prop :=
  (∀ p ∈ df.cols, p.2.length = df.nRows) ∧ (df.cols.map Prod.fst).Nodup

instance (df : DataFrame) : Decidable df.WF := by
  unfold WF; infer_instance

end DataFrame

/-- State of one path of the filesystem: the file is absent
(`os.path.exists` is false), unreadable (`pd.read_csv` or the datetime
conversion raises), or readable, parsing to a dataframe. -/
inductive FileContent where
  | absent
  | unreadable
  | readable (df : DataFrame)
deriving DecidableEq

/-- The filesystem as seen by the tools: contents by path. -/
def FileSystem := String → FileContent

/-- Split a character list at every occurrence of a separator. -/
def splitOnChar (c : Char) : List Char → List (List Char)
  | [] => [[]]
  | a :: rest =>
    match splitOnChar c rest with
    | [] => [[a]]
    | g :: gs => if a = c then [] :: g :: gs else (a :: g) :: gs

/-- Decimal digits to a number (`none` on empty or non-digit input). -/
def digitsToNat? (l : List Char) : Option Nat :=
  if l.isEmpty then none
  else
    l.foldl
      (fun acc c => do
        let n ← acc
        if c.isDigit then some (n * 10 + (c.toNat - 48)) else none)
      (some 0)

/-- `pd.to_datetime` applied to one cell of the dataset's `date` column:
parses the `m/d/Y` strings of the CSV (pandas dateutil default for this
dataset), passes datetimes through, keeps missing values as `NaT`.
Cells of any other shape are out of the modelled scope and make the
conversion fail (load then degrades to `None` exactly as a parse error
would). -/
def toDatetimeCell : Cell → Option Cell
  | .str s =>
    match splitOnChar '/' s.toList with
    | [m, d, y] => do
      let mn ← digitsToNat? m
      let dn ← digitsToNat? d
      let yn ← digitsToNat? y
      if 1 ≤ mn ∧ mn ≤ 12 ∧ 1 ≤ dn ∧ dn ≤ 31 then
        some (Cell.date ⟨yn, mn, dn⟩)
      else none
    | _ => none
  | .date d => some (Cell.date d)
  | .na => some Cell.na
  | _ => none

/-- `pd.to_datetime(df['date'])` over the whole column. -/
def toDatetimeCol (cells : List Cell) : Option (List Cell) :=
  cells.mapM toDatetimeCell

/-! ### Number and string rendering helpers

Python renders `np.float64`/`np.int64` values through `str()` and
format specifiers such as `:.3f`, `:.1f`, `:+.1f` and `:,`.  The exact
values are rationals here; rounding is modelled as round-half-up on the
exact value (CPython rounds half-even on the underlying binary float;
no claim inspects a digit where the two differ). -/

/-- Left-pad a digit string with zeros to the given width. -/
def padZeros (w : Nat) (s : String) : String :=
  String.mk (List.replicate (w - s.length) '0') ++ s

/-- `str(value)` for a numeric cell value: integral values print without
a fractional part (`int64` cells), fractional values print as an exact
fraction (the decimal digit string of a float is abstracted; no claim
reads it). -/
def strOfRat (q : ℚ) : String :=
  if q.den = 1 then toString q.num
  else toString q.num ++ "/" ++ toString q.den

/-- `f"{q:.{decs}f}"` on the exact value. -/
def fmtFixed (decs : Nat) (q : ℚ) : String :=
  let sgn := if q < 0 then "-" else ""
  let scaled : ℤ := ⌊|q| * (10 ^ decs : ℚ) + 1/2⌋
  let base : ℤ := (10 : ℤ) ^ decs
  sgn ++ toString (scaled / base) ++
    (if decs = 0 then "" else "." ++ padZeros decs (toString (scaled % base)))

/-- Formatting of a possibly-NaN value (`none` is pandas `NaN`,
rendered `nan` by CPython float formatting). -/
def fmtFixedOpt (decs : Nat) : Option ℚ → String
  | none => "nan"
  | some q => fmtFixed decs q

/-- `f"{q:+.{decs}f}"`: explicit sign (CPython renders NaN as `+nan`
under the `+` flag). -/
def fmtSignedOpt (decs : Nat) : Option ℚ → String
  | none => "+nan"
  | some q => if q < 0 then fmtFixed decs q else "+" ++ fmtFixed decs q

/-- Group the reversed digit list of an integer in threes with commas. -/
def group3Rev : List Char → List Char
  | a :: b :: c :: d :: rest => a :: b :: c :: ',' :: group3Rev (d :: rest)
  | l => l

/-- Drop trailing zero characters of a digit string. -/
def trimTrailingZeros (s : String) : String :=
  String.mk ((s.toList.reverse.dropWhile (fun c => c = '0')).reverse)

/-- `f"{q:,}"`: thousands separators; fractional values keep a decimal
part (rendered from the exact value to at most six places; no claim
reads those digits). -/
def fmtComma (q : ℚ) : String :=
  let sgn := if q < 0 then "-" else ""
  let ip : Nat := (⌊|q|⌋).toNat
  let ipStr := String.mk ((group3Rev (toString ip).toList.reverse).reverse)
  if q.den = 1 then sgn ++ ipStr
  else
    let frac := |q| - (⌊|q|⌋ : ℚ)
    let digits := trimTrailingZeros (padZeros 6 (toString (⌊frac * 1000000⌋).toNat))
    sgn ++ ipStr ++ "." ++ (if digits = "" then "0" else digits)

/-! ### Exact integer square roots

The only irrational values the tools ever render are square roots
(standard deviations and Pearson correlations).  They are printed to a
fixed number of decimals, which is computable exactly from the rational
radicand by integer square roots. -/

/-- `⌊√q⌋` for a rational `q` (0 for negative input). -/
def floorSqrtQ (q : ℚ) : ℕ :=
  if q ≤ 0 then 0 else Nat.sqrt (q.num.toNat * q.den) / q.den

/-- `⌊√q + 1/2⌋`: round-half-up of `√q`. -/
def roundHalfUpSqrt (q : ℚ) : ℕ :=
  (floorSqrtQ (4 * q) + 1) / 2

/-- `f"{√q:.{decs}f}"` computed exactly: round `10^decs · √q` half-up. -/
def fmtSqrtFixed (decs : Nat) (q : ℚ) : String :=
  let scaled := roundHalfUpSqrt ((10 ^ (2 * decs) : ℚ) * q)
  let base := (10 : ℕ) ^ decs
  toString (scaled / base) ++ "." ++ padZeros decs (toString (scaled % base))

/-! ### Column statistics (pandas Series reductions, `skipna=True`) -/

/-- The numeric entries of a column, missing values dropped (pandas
reductions default to `skipna=True`). -/
def numsOf (cells : List Cell) : List ℚ := cells.filterMap Cell.toNum?

/-- `series.mean()`: `NaN` (`none`) on an all-missing column. -/
def meanQ (cells : List Cell) : Option ℚ :=
  let v := numsOf cells
  if v.length = 0 then none else some (v.sum / v.length)

/-- `series.sum()` (empty sum is 0, as in pandas). -/
def sumQ (cells : List Cell) : ℚ := (numsOf cells).sum

/-- `series.min()` over numeric entries. -/
def minQ (cells : List Cell) : Option ℚ := (numsOf cells).min?

/-- `series.max()` over numeric entries. -/
def maxQ (cells : List Cell) : Option ℚ := (numsOf cells).max?

/-- Insert into an ascending list (used by the quantile computation). -/
def insertAsc (x : ℚ) : List ℚ → List ℚ
  | [] => [x]
  | y :: ys => if x ≤ y then x :: y :: ys else y :: insertAsc x ys

/-- Ascending insertion sort. -/
def sortAsc : List ℚ → List ℚ
  | [] => []
  | x :: xs => insertAsc x (sortAsc xs)

/-- `series.quantile(p)` with pandas' linear interpolation (the `25%`,
`50%`, `75%` rows of `describe()`). -/
def quantileQ (p : ℚ) (cells : List Cell) : Option ℚ :=
  let v := sortAsc (numsOf cells)
  match v with
  | [] => none
  | _ :: _ =>
    let n := v.length
    let pos : ℚ := p * ((n : ℚ) - 1)
    let i : ℕ := (⌊pos⌋).toNat
    let lo := v.getD i 0
    let hi := v.getD (min (i + 1) (n - 1)) lo
    some (lo + (pos - (i : ℚ)) * (hi - lo))

/-- `series.var()` with `ddof=1` (the variance under `describe()`'s
`std`); `NaN` when fewer than two numeric entries. -/
def varQ (cells : List Cell) : Option ℚ :=
  let v := numsOf cells
  if v.length < 2 then none
  else
    let m := v.sum / v.length
    some (((v.map (fun x => (x - m) ^ 2)).sum) / ((v.length : ℚ) - 1))

/-- `series.std()` rendered to `decs` decimals (`nan` when undefined). -/
def fmtStd (decs : Nat) (cells : List Cell) : String :=
  match varQ cells with
  | none => "nan"
  | some v => fmtSqrtFixed decs v

/-- `series.isnull().sum()` -/
def nullCount (cells : List Cell) : Nat := (cells.filter Cell.isNa).length

/-- `series.nunique()` (missing values excluded). -/
def nuniqueQ (cells : List Cell) : Nat :=
  ((cells.filter (fun c => ¬ c.isNa)).dedup).length

/-- Distinct values in order of first appearance. -/
def firstOccur : List Cell → List Cell
  | [] => []
  | c :: rest => c :: firstOccur (rest.filter (fun x => x ≠ c))
termination_by l => l.length
decreasing_by
  simp only [List.length_cons]
  have := List.length_filter_le (fun x => x ≠ c) rest
  omega

/-- Stable descending insertion by count. -/
def insertCountDesc (p : Cell × Nat) : List (Cell × Nat) → List (Cell × Nat)
  | [] => [p]
  | q :: rest => if q.2 ≤ p.2 then p :: q :: rest else q :: insertCountDesc p rest

/-- Stable descending sort by count. -/
def sortCountDesc : List (Cell × Nat) → List (Cell × Nat)
  | [] => []
  | p :: ps => insertCountDesc p (sortCountDesc ps)

/-- `series.value_counts()`: counts of the non-missing values, most
frequent first (ties in order of first appearance; pandas leaves tie
order unspecified, and no claim depends on it). -/
def valueCounts (cells : List Cell) : List (Cell × Nat) :=
  sortCountDesc
    ((firstOccur (cells.filter (fun c => ¬ c.isNa))).map
      (fun k => (k, cells.count k)))

def Cell.isNumC : Cell → Bool
  | .num _ => true
  | _ => false

def Cell.isIntC : Cell → Bool
  | .num q => q.den = 1
  | _ => false

def Cell.isDateC : Cell → Bool
  | .date _ => true
  | _ => false

/-- The dtype `pd.read_csv` inference assigns to a column, as rendered
by `str(df[col].dtype)`. -/
def dtypeOf (cells : List Cell) : String :=
  if cells.any Cell.isDateC then "datetime64[ns]"
  else if cells.length != 0 && cells.all Cell.isIntC then "int64"
  else if cells.all (fun c => c.isNumC || c.isNa) then "float64"
  else "object"

/-- Column selected by `select_dtypes(include=[np.number])`. -/
def isNumericDtype (cells : List Cell) : Bool :=
  dtypeOf cells = "int64" || dtypeOf cells = "float64"

def pad2 (n : Nat) : String := padZeros 2 (toString n)

/-- `%Y-%m-%d` -/
def isoDate (d : Date) : String :=
  padZeros 4 (toString d.year) ++ "-" ++ pad2 d.month ++ "-" ++ pad2 d.day

/-- `str(Timestamp)` (the dataset carries no time of day). -/
def renderTimestamp (d : Date) : String := isoDate d ++ " 00:00:00"

/-- `min()` of a list of dates. -/
def dateMin? (l : List Date) : Option Date :=
  l.foldl
    (fun acc d =>
      match acc with
      | none => some d
      | some e => some (if Date.leb d e then d else e))
    none

/-- `max()` of a list of dates. -/
def dateMax? (l : List Date) : Option Date :=
  l.foldl
    (fun acc d =>
      match acc with
      | none => some d
      | some e => some (if Date.leb e d then d else e))
    none

/-- `str(series.min())` of a datetime column: `NaT` when empty. -/
def renderDateOpt : Option Date → String
  | none => "NaT"
  | some d => renderTimestamp d

/-- `str()` of a possibly-NaN numeric reduction. -/
def renderNumOpt : Option ℚ → String
  | none => "nan"
  | some q => strOfRat q

/-- Python `repr` of a cell value inside a printed list or dict. -/
def Cell.pyRepr : Cell → String
  | .num q => strOfRat q
  | .str s => "\x27" ++ s ++ "\x27"
  | .date d => "Timestamp(\x27" ++ renderTimestamp d ++ "\x27)"
  | .na => "nan"

/-- The `if pd.isna(value): "N/A" else str(value)` rendering used when
iterating rows. -/
def Cell.render : Cell → String
  | .na => "N/A"
  | .num q => strOfRat q
  | .str s => s
  | .date d => renderTimestamp d

/-- The cells of row `i` in column order (`row[col] for col in df.columns`). -/
def rowCells (df : DataFrame) (i : Nat) : List Cell :=
  df.cols.map (fun p => p.2.getD i Cell.na)

/-- One `Linha {idx+1}: ...` line of the raw dumps. -/
def rowLine (df : DataFrame) (i : Nat) : String :=
  "Linha " ++ toString (i + 1) ++ ": " ++
    String.intercalate " | " ((rowCells df i).map Cell.render)

/-- The `result += line + "\n"` accumulation of the row-dump loops. -/
def concatLines : List String → String
  | [] => ""
  | l :: ls => l ++ "\n" ++ concatLines ls

/-! ## `RawDataAccessTool` -/

namespace RawDataAccessTool

def name : String := "Raw Data Access"

def description : String :=
  "Ferramenta otimizada que fornece acesso direto aos dados brutos do dataset de produtividade. " ++
  "Permite ao agente examinar os dados completos para fazer suas próprias análises e conclusões. " ++
  "Muito mais rápida que ler arquivo linha por linha."

def csv_path : String := "knowledge/garments_worker_productivity.csv"

/-- `RawDataAccessTool._load_data`: `None` when the file is absent, and
on any exception while reading or converting (the `except` returns
`None`); otherwise the dataframe with its `date` column converted. -/
def load_data (fs : FileSystem) : Option DataFrame :=
  match fs csv_path with
  | .absent => none
  | .unreadable => none
  | .readable df =>
    match df.getCol? "date" with
    | none => none
    | some dateCol =>
      match toDatetimeCol dateCol with
      | none => none
      | some converted => some (df.setCol "date" converted)

/-- One `• col: ...` line of `_get_column_info`. -/
def columnInfoLine (col : String) (cells : List Cell) : String :=
  if isNumericDtype cells then
    "• " ++ col ++ ": " ++ dtypeOf cells ++ " | Nulos: " ++ toString (nullCount cells) ++
      " | Únicos: " ++ toString (nuniqueQ cells) ++ " | Range: " ++
      renderNumOpt (minQ cells) ++ "-" ++ renderNumOpt (maxQ cells)
  else
    "• " ++ col ++ ": " ++ dtypeOf cells ++ " | Nulos: " ++ toString (nullCount cells) ++
      " | Únicos: " ++ toString (nuniqueQ cells) ++ " | Exemplos: " ++
      "[" ++ String.intercalate ", "
        ((((valueCounts cells).take 3).map Prod.fst).map Cell.pyRepr) ++ "]"

/-- `RawDataAccessTool._get_column_info` -/
def get_column_info (df : DataFrame) : String :=
  String.intercalate "\n"
    (("INFORMAÇÕES DAS COLUNAS (" ++ toString df.nCols ++ " colunas, " ++
        toString df.nRows ++ " registros):\n") ::
      df.cols.map (fun p => columnInfoLine p.1 p.2))

/-- The `Linha ...` lines printed by `_get_sample_data` (iteration over
`df.head(50)`). -/
def sampleRowLines (df : DataFrame) : List String :=
  (List.range (df.head 50).nRows).map (fun i => rowLine (df.head 50) i)

/-- `RawDataAccessTool._get_sample_data` -/
def get_sample_data (df : DataFrame) : String :=
  "AMOSTRA DOS DADOS (primeiras 50 linhas de " ++ toString df.nRows ++ " total):\n\n" ++
  "COLUNAS: " ++ String.intercalate " | " df.colNames ++ "\n\n" ++
  concatLines (sampleRowLines df) ++
  "\n... (mostrando 50 de " ++ toString df.nRows ++ " registros totais)\n" ++
  "\nPara ver todos os dados, use data_format=\x27full\x27"

/-- The early-return warning of `_get_full_data` for oversize tables:
it mentions only the record count, never a row. -/
def fullWarning (n : Nat) : String :=
  "ATENÇÃO: Dataset tem " ++ toString n ++
  " registros. Isso pode ser muito grande para processar de uma vez. Use \x27sample\x27 para ver uma amostra ou \x27summary\x27 para estatísticas básicas."

/-- The `Linha ...` lines printed by `_get_full_data`. -/
def fullRowLines (df : DataFrame) : List String :=
  (List.range df.nRows).map (rowLine df)

/-- `RawDataAccessTool._get_full_data` -/
def get_full_data (df : DataFrame) : String :=
  if 500 < df.nRows then fullWarning df.nRows
  else
    "DATASET COMPLETO (" ++ toString df.nRows ++ " registros):\n\n" ++
    "COLUNAS: " ++ String.intercalate " | " df.colNames ++ "\n\n" ++
    concatLines (fullRowLines df)

/-- The per-column block of `_get_basic_summary` for one numeric column. -/
def summaryNumericBlock (col : String) (cells : List Cell) : String :=
  "\n" ++ col ++ ":\n" ++
  "  Média: " ++ fmtFixedOpt 3 (meanQ cells) ++ "\n" ++
  "  Mediana: " ++ fmtFixedOpt 3 (quantileQ (1/2) cells) ++ "\n" ++
  "  Min: " ++ fmtFixedOpt 3 (minQ cells) ++ " | Max: " ++ fmtFixedOpt 3 (maxQ cells) ++ "\n" ++
  "  Desvio padrão: " ++ fmtStd 3 cells ++ "\n"

/-- `value_counts().to_dict()` as printed by `str()`. -/
def valueCountsDict (cells : List Cell) : String :=
  "\x7b" ++
    String.intercalate ", "
      ((valueCounts cells).map (fun p => p.1.pyRepr ++ ": " ++ toString p.2)) ++
  "\x7d"

/-- `RawDataAccessTool._get_basic_summary`; raises `KeyError` when the
`date` column is missing (impossible after `_load_data`, which converts
it, but the method is modelled on its own). -/
def get_basic_summary (df : DataFrame) : Except String String := do
  let dateCol ←
    (match df.getCol? "date" with
     | none => Except.error "\x27date\x27"
     | some c => Except.ok c)
  let dates := dateCol.filterMap Cell.toDate?
  let numericCols := df.cols.filter (fun p => isNumericDtype p.2)
  let categoricalCols := df.cols.filter (fun p => dtypeOf p.2 = "object")
  return (
    "RESUMO BÁSICO DO DATASET:\n\n" ++
    "• Total de registros: " ++ toString df.nRows ++ "\n" ++
    "• Total de colunas: " ++ toString df.nCols ++ "\n" ++
    "• Período: " ++ renderDateOpt (dateMin? dates) ++ " a " ++
      renderDateOpt (dateMax? dates) ++ "\n\n" ++
    "ESTATÍSTICAS DAS COLUNAS NUMÉRICAS:\n" ++
    String.join (numericCols.map (fun p => summaryNumericBlock p.1 p.2)) ++
    "\nCONTAGEM POR VALORES ÚNICOS (colunas categóricas):\n" ++
    String.join
      ((categoricalCols.filter (fun p => p.1 ≠ "date")).map
        (fun p => "\n" ++ p.1 ++ ": " ++ valueCountsDict p.2 ++ "\n")))

/-- The body of `RawDataAccessTool._run` after loading, inside the
`try`: dispatch on `data_format`, any unrecognized value falling back to
the sample view. -/
def dispatch (df : DataFrame) (data_format : String) : Except String String :=
  if data_format = "columns" then .ok (get_column_info df)
  else if data_format = "sample" then .ok (get_sample_data df)
  else if data_format = "full" then .ok (get_full_data df)
  else if data_format = "summary" then get_basic_summary df
  else .ok (get_sample_data df)

/-- The load-failure message shared by both tools. -/
def loadError : String := "Erro: Não foi possível carregar o dataset de produtividade."

/-- `RawDataAccessTool._run` -/
def run (fs : FileSystem) (data_format : String) : String :=
  match load_data fs with
  | none => loadError
  | some df =>
    match dispatch df data_format with
    | .ok s => s
    | .error e => "Erro ao acessar dados: " ++ e

end RawDataAccessTool

/-! ### Series alignment, groupby and Pearson correlation

`Series.corr` values are `cov/(σσ)`, irrational in general.  They are
represented exactly by the triple `(sxy, sxx, syy)` of centred sums with
`corr = sxy / √(sxx·syy)`; `none` is pandas `NaN` (degenerate variance,
which subsumes fewer than two paired observations).  Every comparison
the source makes against a correlation is decided exactly on the triple;
bridging lemmas below relate the encoded tests to the real value. -/

/-- `df[c]`, raising `KeyError` (whose `str()` is the quoted name). -/
def getColE (df : DataFrame) (c : String) : Except String (List Cell) :=
  match df.getCol? c with
  | none => Except.error ("\x27" ++ c ++ "\x27")
  | some cells => Except.ok cells

/-- The row-aligned numeric pairs of two columns (pandas pairwise
complete observations: rows missing on either side are dropped). -/
def numPairs (xs ys : List Cell) : List (ℚ × ℚ) :=
  (xs.zip ys).filterMap
    (fun p => do
      let a ← p.1.toNum?
      let b ← p.2.toNum?
      pure (a, b))

/-- Encoded `Series.corr`: centred sums `(sxy, sxx, syy)` with
`corr = sxy / √(sxx·syy)`, `none` when pandas yields `NaN`. -/
def corrPair (xs ys : List Cell) : Option (ℚ × ℚ × ℚ) :=
  let ps := numPairs xs ys
  let n := ps.length
  if n = 0 then none
  else
    let xm := (ps.map Prod.fst).sum / n
    let ym := (ps.map Prod.snd).sum / n
    let sxy := (ps.map (fun p => (p.1 - xm) * (p.2 - ym))).sum
    let sxx := (ps.map (fun p => (p.1 - xm) ^ 2)).sum
    let syy := (ps.map (fun p => (p.2 - ym) ^ 2)).sum
    if sxx = 0 ∨ syy = 0 then none else some (sxy, sxx, syy)

/-- `corr > 0` (false on `NaN`): the sign of `corr` is the sign of
`sxy` since `√(sxx·syy) > 0`. -/
def corrGtZero : Option (ℚ × ℚ × ℚ) → Bool
  | none => false
  | some (sxy, _, _) => 0 < sxy

/-- `abs(corr) > c` for a threshold `c ≥ 0` (false on `NaN`):
`|sxy|/√(sxx·syy) > c ↔ sxy² > c²·sxx·syy`. -/
def corrAbsGt (c : ℚ) : Option (ℚ × ℚ × ℚ) → Bool
  | none => false
  | some (sxy, sxx, syy) => c ^ 2 * (sxx * syy) < sxy ^ 2

/-- `corr > c` for a threshold `c > 0` (false on `NaN`). -/
def corrGtPos (c : ℚ) : Option (ℚ × ℚ × ℚ) → Bool
  | none => false
  | some (sxy, sxx, syy) => 0 < sxy ∧ c ^ 2 * (sxx * syy) < sxy ^ 2

/-- `corr < -c` for a threshold `c > 0` (false on `NaN`). -/
def corrLtNeg (c : ℚ) : Option (ℚ × ℚ × ℚ) → Bool
  | none => false
  | some (sxy, sxx, syy) => sxy < 0 ∧ c ^ 2 * (sxx * syy) < sxy ^ 2

/-- Exact comparison of two non-NaN encoded correlations
(`corr₁ < corr₂`), by sign analysis and cross-multiplied squares. -/
def corrValLt : (ℚ × ℚ × ℚ) → (ℚ × ℚ × ℚ) → Bool
  | (s₁, x₁, y₁), (s₂, x₂, y₂) =>
    if s₁ < 0 then
      if 0 ≤ s₂ then true
      else s₂ ^ 2 * (x₁ * y₁) < s₁ ^ 2 * (x₂ * y₂)
    else
      if s₂ ≤ 0 then false
      else s₁ ^ 2 * (x₂ * y₂) < s₂ ^ 2 * (x₁ * y₁)

/-- `a > b` in the descending order of `sort_values(ascending=False)`
with `NaN` last. -/
def corrGtSort (a b : Option (ℚ × ℚ × ℚ)) : Bool :=
  match a, b with
  | none, _ => false
  | some _, none => true
  | some av, some bv => corrValLt bv av

/-- Insert into a list sorted descending by correlation. -/
def insertCorrDesc (p : String × Option (ℚ × ℚ × ℚ)) :
    List (String × Option (ℚ × ℚ × ℚ)) → List (String × Option (ℚ × ℚ × ℚ))
  | [] => [p]
  | q :: rest =>
    if corrGtSort q.2 p.2 then q :: insertCorrDesc p rest else p :: q :: rest

/-- `sort_values(ascending=False)` on the correlation series (stable on
ties; pandas' quicksort leaves tie order unspecified and no claim
depends on it). -/
def sortCorrDesc : List (String × Option (ℚ × ℚ × ℚ)) →
    List (String × Option (ℚ × ℚ × ℚ))
  | [] => []
  | p :: ps => insertCorrDesc p (sortCorrDesc ps)

/-- `f"{corr:.3f}"` on the encoded value: `±√(sxy²/(sxx·syy))` rendered
by exact square-root rounding. -/
def fmtCorr3 : Option (ℚ × ℚ × ℚ) → String
  | none => "nan"
  | some (sxy, sxx, syy) =>
    (if sxy < 0 then "-" else "") ++ fmtSqrtFixed 3 (sxy ^ 2 / (sxx * syy))

/-- Ordering on cells used by `groupby` key sorting (group keys of one
column share a constructor; the heterogeneous case never arises in a
typed column and is left unspecified). -/
def Cell.leb : Cell → Cell → Bool
  | .num a, .num b => a ≤ b
  | .str a, .str b => a ≤ b
  | .date a, .date b => Date.leb a b
  | _, _ => true

def insertCellAsc (x : Cell) : List Cell → List Cell
  | [] => [x]
  | y :: ys => if x.leb y then x :: y :: ys else y :: insertCellAsc x ys

def sortCellsAsc : List Cell → List Cell
  | [] => []
  | x :: xs => insertCellAsc x (sortCellsAsc xs)

/-- The group keys of `df.groupby(col)`: distinct non-missing values,
sorted ascending (`sort=True`, `dropna=True`, the pandas defaults). -/
def groupKeys (keyCells : List Cell) : List Cell :=
  sortCellsAsc (firstOccur (keyCells.filter (fun c => ¬ c.isNa)))

/-- The row positions belonging to one group. -/
def groupRows (keyCells : List Cell) (k : Cell) : List Nat :=
  (List.range keyCells.length).filter (fun i => keyCells.getD i Cell.na = k)

/-- The cells of a column at the given row positions. -/
def selectIdx (cells : List Cell) (idx : List Nat) : List Cell :=
  idx.map (fun i => cells.getD i Cell.na)

/-- `df.groupby(key)[val].mean()` as an ordered series. -/
def groupMeanSeries (keyCells valCells : List Cell) : List (Cell × Option ℚ) :=
  (groupKeys keyCells).map
    (fun k => (k, meanQ (selectIdx valCells (groupRows keyCells k))))

/-- `series.idxmax()`: label of the first maximal non-missing value;
raises `ValueError` on an empty or all-NaN series. -/
def idxmaxSeries (s : List (Cell × Option ℚ)) : Except String Cell :=
  match s.filterMap (fun p => p.2.map (fun v => (p.1, v))) with
  | [] => Except.error "attempt to get argmax of an empty sequence"
  | v :: rest =>
    Except.ok (rest.foldl (fun best p => if best.2 < p.2 then p else best) v).1

/-- `series.idxmin()` -/
def idxminSeries (s : List (Cell × Option ℚ)) : Except String Cell :=
  match s.filterMap (fun p => p.2.map (fun v => (p.1, v))) with
  | [] => Except.error "attempt to get argmin of an empty sequence"
  | v :: rest =>
    Except.ok (rest.foldl (fun best p => if p.2 < best.2 then p else best) v).1

/-- `series[k]` -/
def seriesGet (s : List (Cell × Option ℚ)) (k : Cell) : Option ℚ :=
  match s.find? (fun p => p.1 = k) with
  | none => none
  | some p => p.2

/-- `series.max()` (skipna) -/
def seriesMax (s : List (Cell × Option ℚ)) : Option ℚ := (s.filterMap Prod.snd).max?

/-- `series.min()` (skipna) -/
def seriesMin (s : List (Cell × Option ℚ)) : Option ℚ := (s.filterMap Prod.snd).min?

/-- Elementwise float subtraction with `NaN` propagation. -/
def subOpt (a b : Option ℚ) : Option ℚ := do
  let x ← a
  let y ← b
  pure (x - y)

/-- `series.sort_values(ascending=False)` on a keyed mean series,
`NaN` last (stable on ties; pandas leaves tie order unspecified). -/
def optValGtSort (a b : Option ℚ) : Bool :=
  match a, b with
  | none, _ => false
  | some _, none => true
  | some x, some y => y < x

def insertValDesc (p : Cell × Option ℚ) : List (Cell × Option ℚ) → List (Cell × Option ℚ)
  | [] => [p]
  | q :: rest =>
    if optValGtSort q.2 p.2 then q :: insertValDesc p rest else p :: q :: rest

def sortValDesc : List (Cell × Option ℚ) → List (Cell × Option ℚ)
  | [] => []
  | p :: ps => insertValDesc p (sortValDesc ps)

/-- Python `str` of a list of strings. -/
def pyStrList (l : List String) : String :=
  "[" ++ String.intercalate ", " (l.map (fun s => "\x27" ++ s ++ "\x27")) ++ "]"

/-- `((a - t) / t) * 100` on float means: `NaN` on missing input; the
zero-mean-target case (float `inf`) is collapsed to `NaN`, which no
claim distinguishes. -/
def gapPct (a t : Option ℚ) : Option ℚ := do
  let x ← a
  let y ← t
  if y = 0 then none else pure ((x - y) / y * 100)

/-- `count / n * 100` with integer `n` (float `NaN` when `n = 0`). -/
def pctOf (count : ℚ) (n : Nat) : Option ℚ :=
  if n = 0 then none else some (count / (n : ℚ) * 100)

/-- `.round(3)` of pandas `DataFrame.agg` results (round-half-up of the
exact value; pandas rounds the binary float half-even, which no claim
distinguishes). -/
def round3Opt (v : Option ℚ) : Option ℚ :=
  v.map (fun q =>
    if q < 0 then -(((⌊|q| * 1000 + 1/2⌋ : ℤ) : ℚ) / 1000)
    else ((⌊q * 1000 + 1/2⌋ : ℤ) : ℚ) / 1000)

/-- Day-of-week index, 0 = Sunday (Sakamoto's method, proleptic
Gregorian, matching `Series.dt.day_name()`). -/
def dayOfWeekIdx (d : Date) : Nat :=
  let t := [0, 3, 2, 5, 0, 3, 5, 1, 4, 6, 2, 4]
  let y := if d.month < 3 then d.year - 1 else d.year
  (y + y / 4 - y / 100 + y / 400 + t.getD (d.month - 1) 0 + d.day) % 7

/-- `Series.dt.day_name()` for one date. -/
def dayName (d : Date) : String :=
  ["Sunday", "Monday", "Tuesday", "Wednesday", "Thursday", "Friday",
   "Saturday"].getD (dayOfWeekIdx d) "Sunday"

/-! ## `OptimizedCSVAnalysisTool` -/

namespace OptimizedCSVAnalysisTool

def name : String := "Optimized CSV Data Analysis"

def description : String :=
  "Ferramenta otimizada para análise rápida do dataset de produtividade. " ++
  "Fornece insights estatísticos específicos, correlações e tendências " ++
  "com dados numéricos precisos. Muito mais rápida que ler o arquivo linha por linha."

def csv_path : String := "knowledge/garments_worker_productivity.csv"

/-- `OptimizedCSVAnalysisTool._load_data`: textually the same code as
`RawDataAccessTool._load_data`. -/
def load_data (fs : FileSystem) : Option DataFrame :=
  match fs csv_path with
  | .absent => none
  | .unreadable => none
  | .readable df =>
    match df.getCol? "date" with
    | none => none
    | some dateCol =>
      match toDatetimeCol dateCol with
      | none => none
      | some converted => some (df.setCol "date" converted)

/-- One `• dept: ...` line of the overview's department distribution. -/
def overviewDeptLine (total_records : Nat) (p : Cell × Nat) : String :=
  "• " ++ p.1.render ++ ": " ++ fmtComma (p.2 : ℚ) ++ " registros (" ++
    fmtFixedOpt 1 (pctOf (p.2 : ℚ) total_records) ++ "%)"

/-- `OptimizedCSVAnalysisTool._get_overview`.  On a table whose `date`
column has no (non-missing) entry, `df['date'].min()` is `NaT` and its
`.strftime` raises `ValueError("NaTType does not support strftime")`,
caught by `_run`. -/
def get_overview (df : DataFrame) : Except String String := do
  let total_records := df.nRows
  let dateCol ← getColE df "date"
  let dmin ←
    (match dateMin? (dateCol.filterMap Cell.toDate?) with
     | none => Except.error "NaTType does not support strftime"
     | some d => Except.ok d)
  let dmax ←
    (match dateMax? (dateCol.filterMap Cell.toDate?) with
     | none => Except.error "NaTType does not support strftime"
     | some d => Except.ok d)
  let date_range := isoDate dmin ++ " a " ++ isoDate dmax
  let prodCol ← getColE df "actual_productivity"
  let avg_productivity := meanQ prodCol
  let targCol ← getColE df "targeted_productivity"
  let avg_target := meanQ targCol
  let productivity_gap := gapPct avg_productivity avg_target
  let deptCol ← getColE df "department"
  let departments := valueCounts deptCol
  let teamCol ← getColE df "team"
  let teams := nuniqueQ teamCol
  let workersCol ← getColE df "no_of_workers"
  let total_workers := sumQ workersCol
  return (
    "\nVISÃO GERAL DO DATASET:\n" ++
    "• Total de registros: " ++ fmtComma (total_records : ℚ) ++ "\n" ++
    "• Período analisado: " ++ date_range ++ "\n" ++
    "• Departamentos: " ++
      String.intercalate ", " ((departments.map Prod.fst).map Cell.render) ++ "\n" ++
    "• Número de equipes: " ++ toString teams ++ "\n" ++
    "• Total de trabalhadores: " ++ fmtComma total_workers ++ "\n" ++
    "\nMÉTRICAS DE PRODUTIVIDADE:\n" ++
    "• Produtividade média alcançada: " ++ fmtFixedOpt 3 avg_productivity ++
      " (" ++ fmtFixedOpt 1 (avg_productivity.map (fun q => q * 100)) ++ "%)\n" ++
    "• Meta média de produtividade: " ++ fmtFixedOpt 3 avg_target ++
      " (" ++ fmtFixedOpt 1 (avg_target.map (fun q => q * 100)) ++ "%)\n" ++
    "• Gap de performance: " ++ fmtSignedOpt 1 productivity_gap ++ "%\n" ++
    "\nDISTRIBUIÇÃO POR DEPARTAMENTO:\n" ++
    String.intercalate "\n" (departments.map (overviewDeptLine total_records)) ++
    "\n        ")

/-- `p / t > c` under numpy float semantics (`p/0` is `±inf` or `NaN`),
for a positive threshold `c`. -/
def ratioCmpGt (c p t : ℚ) : Bool :=
  if t = 0 then 0 < p else c < p / t

/-- `p / t < c` under numpy float semantics, for a positive `c`. -/
def ratioCmpLt (c p t : ℚ) : Bool :=
  if t = 0 then p < 0 else p / t < c

/-- Count of aligned numeric pairs satisfying an elementwise comparison
(`NaN` on either side compares false, as in pandas). -/
def countPairs (f : ℚ → ℚ → Bool) (xs ys : List Cell) : Nat :=
  (numPairs xs ys).countP (fun p => f p.1 p.2)

/-- The `coeficiente de variação` rendering
`f"{(std/mean)*100:.1f}"`: `100·√(var)/mean` to one decimal, computed
by exact square-root rounding (`nan` or `inf` in the degenerate float
cases). -/
def fmtCoefVar (cells : List Cell) : String :=
  match varQ cells, meanQ cells with
  | some v, some m =>
    if m = 0 then (if v = 0 then "nan" else "inf")
    else
      let scaled := roundHalfUpSqrt (1000000 * v / m ^ 2)
      (if m < 0 then "-" else "") ++
        toString (scaled / 10) ++ "." ++ toString (scaled % 10)
  | _, _ => "nan"

/-- `OptimizedCSVAnalysisTool._get_productivity_stats` -/
def get_productivity_stats (df : DataFrame) : Except String String := do
  let productivity ← getColE df "actual_productivity"
  let target ← getColE df "targeted_productivity"
  let above_target := countPairs (fun p t => t < p) productivity target
  let below_target := countPairs (fun p t => p < t) productivity target
  let at_target := countPairs (fun p t => p = t) productivity target
  let n := df.nRows
  let high_performers := countPairs (fun p t => ratioCmpGt (11/10) p t) productivity target
  let low_performers := countPairs (fun p t => ratioCmpLt (9/10) p t) productivity target
  return (
    "\nESTATÍSTICAS DETALHADAS DE PRODUTIVIDADE:\n" ++
    "\nPERFORMANCE vs META:\n" ++
    "• Acima da meta: " ++ fmtComma (above_target : ℚ) ++ " registros (" ++
      fmtFixedOpt 1 (pctOf (above_target : ℚ) n) ++ "%)\n" ++
    "• Abaixo da meta: " ++ fmtComma (below_target : ℚ) ++ " registros (" ++
      fmtFixedOpt 1 (pctOf (below_target : ℚ) n) ++ "%)\n" ++
    "• Na meta: " ++ fmtComma (at_target : ℚ) ++ " registros (" ++
      fmtFixedOpt 1 (pctOf (at_target : ℚ) n) ++ "%)\n" ++
    "\nDISTRIBUIÇÃO DE PRODUTIVIDADE:\n" ++
    "• Mínima: " ++ fmtFixedOpt 3 (minQ productivity) ++ " (" ++
      fmtFixedOpt 1 ((minQ productivity).map (fun q => q * 100)) ++ "%)\n" ++
    "• 25º percentil: " ++ fmtFixedOpt 3 (quantileQ (1/4) productivity) ++ " (" ++
      fmtFixedOpt 1 ((quantileQ (1/4) productivity).map (fun q => q * 100)) ++ "%)\n" ++
    "• Mediana: " ++ fmtFixedOpt 3 (quantileQ (1/2) productivity) ++ " (" ++
      fmtFixedOpt 1 ((quantileQ (1/2) productivity).map (fun q => q * 100)) ++ "%)\n" ++
    "• Média: " ++ fmtFixedOpt 3 (meanQ productivity) ++ " (" ++
      fmtFixedOpt 1 ((meanQ productivity).map (fun q => q * 100)) ++ "%)\n" ++
    "• 75º percentil: " ++ fmtFixedOpt 3 (quantileQ (3/4) productivity) ++ " (" ++
      fmtFixedOpt 1 ((quantileQ (3/4) productivity).map (fun q => q * 100)) ++ "%)\n" ++
    "• Máxima: " ++ fmtFixedOpt 3 (maxQ productivity) ++ " (" ++
      fmtFixedOpt 1 ((maxQ productivity).map (fun q => q * 100)) ++ "%)\n" ++
    "• Desvio padrão: " ++ fmtStd 3 productivity ++ "\n" ++
    "\nANÁLISE DE EFICIÊNCIA:\n" ++
    "• Alto desempenho (>110% da meta): " ++ fmtComma (high_performers : ℚ) ++
      " registros (" ++ fmtFixedOpt 1 (pctOf (high_performers : ℚ) n) ++ "%)\n" ++
    "• Baixo desempenho (<90% da meta): " ++ fmtComma (low_performers : ℚ) ++
      " registros (" ++ fmtFixedOpt 1 (pctOf (low_performers : ℚ) n) ++ "%)\n" ++
    "• Coeficiente de variação: " ++ fmtCoefVar productivity ++ "%\n        ")

/-- One department block of `_get_department_analysis`.  The aggregated
means are `.round(3)`-ed before the gap is computed, exactly as in the
source. -/
def deptBlock (deptCol prodCol targCol workCol otCol idleCol : List Cell)
    (dept : Cell) : String :=
  let rows := groupRows deptCol dept
  let avg_prod := round3Opt (meanQ (selectIdx prodCol rows))
  let avg_target := round3Opt (meanQ (selectIdx targCol rows))
  let gap := gapPct avg_prod avg_target
  let workers := sumQ (selectIdx workCol rows)
  let records := (selectIdx prodCol rows).countP (fun c => ¬ c.isNa)
  let overtime := round3Opt (meanQ (selectIdx otCol rows))
  let idle := round3Opt (meanQ (selectIdx idleCol rows))
  "\nDEPARTAMENTO: " ++ (Cell.render dept).toUpper ++ "\n" ++
  "• Registros: " ++ fmtComma (records : ℚ) ++ "\n" ++
  "• Total de trabalhadores: " ++ fmtComma workers ++ "\n" ++
  "• Produtividade média: " ++ fmtFixedOpt 3 avg_prod ++ " (" ++
    fmtFixedOpt 1 (avg_prod.map (fun q => q * 100)) ++ "%)\n" ++
  "• Meta média: " ++ fmtFixedOpt 3 avg_target ++ " (" ++
    fmtFixedOpt 1 (avg_target.map (fun q => q * 100)) ++ "%)\n" ++
  "• Gap de performance: " ++ fmtSignedOpt 1 gap ++ "%\n" ++
  "• Horas extras médias: " ++ fmtFixedOpt 1 overtime ++ "h\n" ++
  "• Tempo ocioso médio: " ++ fmtFixedOpt 1 idle ++ "min\n            "

/-- `OptimizedCSVAnalysisTool._get_department_analysis` -/
def get_department_analysis (df : DataFrame) : Except String String := do
  let deptCol ← getColE df "department"
  let prodCol ← getColE df "actual_productivity"
  let targCol ← getColE df "targeted_productivity"
  let workCol ← getColE df "no_of_workers"
  let otCol ← getColE df "over_time"
  let idleCol ← getColE df "idle_time"
  let keys := groupKeys deptCol
  return ("ANÁLISE POR DEPARTAMENTO:" ++
    String.join (keys.map (deptBlock deptCol prodCol targCol workCol otCol idleCol)))

/-- The two column assignments of `_get_time_trends`
(`df['month'] = df['date'].dt.month` and
`df['day_of_week'] = df['date'].dt.day_name()`): this is the one place
either tool mutates the loaded dataframe. -/
def withTimeCols (df : DataFrame) : Except String DataFrame :=
  match getColE df "date" with
  | .error e => .error e
  | .ok dateCol =>
    if dateCol.all (fun c => c.isDateC || c.isNa) then
      .ok ((df.setCol "month"
              (dateCol.map
                (fun c => match c with | .date d => Cell.num (d.month : ℚ) | _ => Cell.na))).setCol
            "day_of_week"
            (dateCol.map
              (fun c => match c with | .date d => Cell.str (dayName d) | _ => Cell.na)))
    else .error "Can only use .dt accessor with datetimelike values"

/-- One `• quarter: ...` or `• day: ...` line of `_get_time_trends`. -/
def trendLine (p : Cell × Option ℚ) : String :=
  "• " ++ p.1.render ++ ": " ++ fmtFixedOpt 3 p.2 ++ " (" ++
    fmtFixedOpt 1 (p.2.map (fun q => q * 100)) ++ "%)"

/-- The body of `_get_time_trends` after the two column assignments. -/
def timeTrendsBody (df : DataFrame) : Except String String := do
  let monthCol ← getColE df "month"
  let prodCol ← getColE df "actual_productivity"
  let monthly_prod := groupMeanSeries monthCol prodCol
  let dayCol ← getColE df "day_of_week"
  let daily_prod := groupMeanSeries dayCol prodCol
  let quarterCol ← getColE df "quarter"
  let quarter_prod := groupMeanSeries quarterCol prodCol
  let best_month ← idxmaxSeries monthly_prod
  let worst_month ← idxminSeries monthly_prod
  let best_day ← idxmaxSeries daily_prod
  let worst_day ← idxminSeries daily_prod
  let variation := subOpt (seriesMax monthly_prod) (seriesMin monthly_prod)
  return (
    "\nTENDÊNCIAS TEMPORAIS:\n" ++
    "\nANÁLISE POR TRIMESTRE:\n" ++
    String.intercalate "\n" (quarter_prod.map trendLine) ++
    "\n\nANÁLISE MENSAL:\n" ++
    "• Melhor mês: " ++ best_month.render ++ " com " ++
      fmtFixedOpt 3 (seriesGet monthly_prod best_month) ++ " (" ++
      fmtFixedOpt 1 ((seriesGet monthly_prod best_month).map (fun q => q * 100)) ++ "%)\n" ++
    "• Pior mês: " ++ worst_month.render ++ " com " ++
      fmtFixedOpt 3 (seriesGet monthly_prod worst_month) ++ " (" ++
      fmtFixedOpt 1 ((seriesGet monthly_prod worst_month).map (fun q => q * 100)) ++ "%)\n" ++
    "• Variação mensal: " ++ fmtFixedOpt 3 variation ++ " (" ++
      fmtFixedOpt 1 (variation.map (fun q => q * 100)) ++ " pontos percentuais)\n" ++
    "\nANÁLISE POR DIA DA SEMANA:\n" ++
    "• Melhor dia: " ++ best_day.render ++ " com " ++
      fmtFixedOpt 3 (seriesGet daily_prod best_day) ++ " (" ++
      fmtFixedOpt 1 ((seriesGet daily_prod best_day).map (fun q => q * 100)) ++ "%)\n" ++
    "• Pior dia: " ++ worst_day.render ++ " com " ++
      fmtFixedOpt 3 (seriesGet daily_prod worst_day) ++ " (" ++
      fmtFixedOpt 1 ((seriesGet daily_prod worst_day).map (fun q => q * 100)) ++ "%)\n" ++
    String.intercalate "\n" ((sortValDesc daily_prod).map trendLine) ++
    "\n        ")

/-- `OptimizedCSVAnalysisTool._get_time_trends`, with the dataframe it
leaves behind: the assignments (when they succeed) extend the frame
with `month` and `day_of_week` before anything later can raise. -/
def get_time_trends_state (df : DataFrame) : Except String String × DataFrame :=
  match withTimeCols df with
  | .error e => (.error e, df)
  | .ok df₂ => (timeTrendsBody df₂, df₂)

/-- The hard-coded column list of `_get_correlation_analysis`. -/
def numerical_cols : List String :=
  ["actual_productivity", "targeted_productivity", "smv", "over_time",
   "idle_time", "no_of_workers", "no_of_style_change", "incentive"]

/-- `df[numerical_cols].corr()['actual_productivity']`, unsorted:
each listed column against `actual_productivity`. -/
def corrSeriesE (df : DataFrame) :
    Except String (List (String × Option (ℚ × ℚ × ℚ))) := do
  let cols ← numerical_cols.mapM
    (fun c =>
      match df.getCol? c with
      | none => Except.error ("[\x27" ++ c ++ "\x27] not in index")
      | some cells => Except.ok (c, cells))
  let actual ←
    (match cols.find? (fun p => p.1 = "actual_productivity") with
     | none => Except.error "\x27actual_productivity\x27"
     | some p => Except.ok p.2)
  return cols.map (fun p => (p.1, corrPair p.2 actual))

/-- The filter of the `strong_correlations` loop: every variable other
than `actual_productivity` whose absolute correlation exceeds 0.1. -/
def strongPairs (sorted : List (String × Option (ℚ × ℚ × ℚ))) :
    List (String × Option (ℚ × ℚ × ℚ)) :=
  sorted.filter (fun p => p.1 ≠ "actual_productivity" && corrAbsGt (1/10) p.2)

/-- One `• var: ...` entry of the correlation report, with the
direction (`positiva` iff `corr > 0`) and strength (`forte` iff
`|corr| > 0.5`, else `moderada` iff `|corr| > 0.3`, else `fraca`)
classification of the source. -/
def corrEntry (var : String) (cv : Option (ℚ × ℚ × ℚ)) : String :=
  "• " ++ var ++ ": " ++ fmtCorr3 cv ++ " (correlação " ++
  (if corrAbsGt (1/2) cv then "forte"
   else if corrAbsGt (3/10) cv then "moderada" else "fraca") ++ " " ++
  (if corrGtZero cv then "positiva" else "negativa") ++ ")"

/-- `OptimizedCSVAnalysisTool._get_correlation_analysis` -/
def get_correlation_analysis (df : DataFrame) : Except String String := do
  let series ← corrSeriesE df
  let corr_matrix := sortCorrDesc series
  let strong_correlations := (strongPairs corr_matrix).map (fun p => corrEntry p.1 p.2)
  return (
    "\nANÁLISE DE CORRELAÇÕES COM PRODUTIVIDADE:\n" ++
    "\nCORRELAÇÕES IDENTIFICADAS:\n" ++
    String.intercalate "\n" strong_correlations ++
    "\n\nINSIGHTS:\n" ++
    "• Variáveis com maior impacto positivo: " ++
      pyStrList (((corr_matrix.filter (fun p => corrGtPos (1/10) p.2)).take 3).map Prod.fst) ++ "\n" ++
    "• Variáveis com maior impacto negativo: " ++
      pyStrList (((corr_matrix.filter (fun p => corrLtNeg (1/10) p.2)).take 3).map Prod.fst) ++
    "\n        ")

/-- The dispatch of `OptimizedCSVAnalysisTool._run` inside the `try`,
together with the dataframe state after the call (only `time_trends`
mutates it). -/
def dispatchState (df : DataFrame) (analysis_type : String) :
    Except String String × DataFrame :=
  if analysis_type = "overview" then (get_overview df, df)
  else if analysis_type = "productivity_stats" then (get_productivity_stats df, df)
  else if analysis_type = "department_analysis" then (get_department_analysis df, df)
  else if analysis_type = "time_trends" then get_time_trends_state df
  else if analysis_type = "correlation_analysis" then (get_correlation_analysis df, df)
  else (get_overview df, df)

/-- `OptimizedCSVAnalysisTool._run` -/
def run (fs : FileSystem) (analysis_type : String) : String :=
  match load_data fs with
  | none => "Erro: Não foi possível carregar o dataset de produtividade."
  | some df =>
    match (dispatchState df analysis_type).1 with
    | .ok s => s
    | .error e => "Erro na análise: " ++ e

end OptimizedCSVAnalysisTool

/-! ## Tool objects

`BaseTool` instances carry only the constant `name`/`description`
class attributes (and the args schema); neither `_run` body contains an
assignment to `self`, so a call returns the object state unchanged and
its output is a function of the filesystem and the argument alone. -/

structure RawToolState where
  name : String := RawDataAccessTool.name
  description : String := RawDataAccessTool.description
deriving DecidableEq

structure OptToolState where
  name : String := OptimizedCSVAnalysisTool.name
  description : String := OptimizedCSVAnalysisTool.description
deriving DecidableEq

/-- A call of `RawDataAccessTool._run` on a tool object: output plus
the object afterwards. -/
def rawToolCall (t : RawToolState) (fs : FileSystem) (data_format : String) :
    String × RawToolState :=
  (RawDataAccessTool.run fs data_format, t)

/-- A call of `OptimizedCSVAnalysisTool._run` on a tool object. -/
def optToolCall (t : OptToolState) (fs : FileSystem) (analysis_type : String) :
    String × OptToolState :=
  (OptimizedCSVAnalysisTool.run fs analysis_type, t)

/-! ## The REST layer (`src/app/api/routes.py`)

Each handler returns a dict serialized to JSON.  `root` and
`health_check` call `datetime.utcnow()`; a handler is therefore a
function of the clock reading at call time. -/

/-- A `datetime.utcnow()` reading. -/
structure UtcTime where
  year : Nat
  month : Nat
  day : Nat
  hour : Nat
  minute : Nat
  second : Nat
  microsecond : Nat
deriving DecidableEq

/-- `datetime.isoformat()` (the microsecond part is omitted when 0,
as CPython does). -/
def UtcTime.isoformat (t : UtcTime) : String :=
  padZeros 4 (toString t.year) ++ "-" ++ pad2 t.month ++ "-" ++ pad2 t.day ++ "T" ++
  pad2 t.hour ++ ":" ++ pad2 t.minute ++ ":" ++ pad2 t.second ++
  (if t.microsecond = 0 then "" else "." ++ padZeros 6 (toString t.microsecond))

/-- JSON values as produced by the handlers. -/
inductive Json where
  | str (s : String)
  | nat (n : Nat)
  | arr (elems : List Json)
  | obj (fields : List (String × Json))

namespace Routes

/-- `GET /` -/
def root (now : UtcTime) : Json :=
  .obj [("message", .str "LLM API está funcionando!"),
        ("status", .str "healthy"),
        ("timestamp", .str now.isoformat),
        ("version", .str "1.0.0")]

/-- `GET /health` -/
def health_check (now : UtcTime) : Json :=
  .obj [("status", .str "healthy"),
        ("service", .str "LLM API"),
        ("timestamp", .str now.isoformat),
        ("uptime", .str "running")]

/-- `GET /llm/models` (reads no clock). -/
def list_models (_now : UtcTime) : Json :=
  .obj [("models",
          .arr [.obj [("name", .str "gpt-3.5-turbo"),
                      ("provider", .str "openai"),
                      ("status", .str "available")],
                .obj [("name", .str "claude-3"),
                      ("provider", .str "anthropic"),
                      ("status", .str "available")]]),
        ("total", .nat 2)]

/-- `POST /llm/chat` (reads no clock). -/
def chat_with_llm (_now : UtcTime) : Json :=
  .obj [("message", .str "Chat endpoint - Em desenvolvimento"),
        ("status", .str "not_implemented")]

end Routes

/-! ## Concrete frames and filesystem states used by the theorems -/

/-- Substring occurrence. -/
def occursIn (needle hay : String) : Prop := ∃ a b, hay = a ++ needle ++ b

/-- The parsed CSV with headers only: every column present, zero data
rows (what `pd.read_csv` yields on a header-only file). -/
def emptyRawDf : DataFrame :=
  ⟨[("date", []), ("quarter", []), ("department", []), ("day", []),
    ("team", []), ("targeted_productivity", []), ("smv", []), ("wip", []),
    ("over_time", []), ("incentive", []), ("idle_time", []), ("idle_men", []),
    ("no_of_style_change", []), ("no_of_workers", []), ("actual_productivity", [])]⟩

/-- Filesystem whose CSV is the header-only file. -/
def fsEmptyCsv : FileSystem := fun _ => FileContent.readable emptyRawDf

/-- A small loadable frame (one row) with the columns `time_trends`
touches, already datetime-typed. -/
def dfOneRow : DataFrame :=
  ⟨[("date", [Cell.date ⟨2015, 1, 1⟩]),
    ("quarter", [Cell.str "Quarter1"]),
    ("actual_productivity", [Cell.num 1])]⟩

/-- Filesystem for `dfOneRow`, with the `date` column as the raw CSV
strings `_load_data` parses. -/
def fsOneRow : FileSystem := fun _ =>
  FileContent.readable
    ⟨[("date", [Cell.str "1/1/2015"]),
      ("quarter", [Cell.str "Quarter1"]),
      ("actual_productivity", [Cell.num 1])]⟩

/-- A frame with 501 one-cell rows (over the full-dump threshold). -/
def df501 : DataFrame := ⟨[("a", List.replicate 501 (Cell.num 0))]⟩

/-- A single-row single-column frame. -/
def dfTiny : DataFrame := ⟨[("c", [Cell.num 7])]⟩

/-- Four-row frame for the correlation analysis: every hard-coded
numeric column equals `actual_productivity` (correlation 1) except
`incentive`, whose covariance with it is 0 (correlation 0). -/
def df8 : DataFrame :=
  ⟨[("date", [Cell.date ⟨2015, 1, 1⟩, Cell.date ⟨2015, 1, 2⟩,
              Cell.date ⟨2015, 1, 3⟩, Cell.date ⟨2015, 1, 4⟩]),
    ("actual_productivity", [Cell.num 1, Cell.num 2, Cell.num 3, Cell.num 4]),
    ("targeted_productivity", [Cell.num 1, Cell.num 2, Cell.num 3, Cell.num 4]),
    ("smv", [Cell.num 1, Cell.num 2, Cell.num 3, Cell.num 4]),
    ("over_time", [Cell.num 1, Cell.num 2, Cell.num 3, Cell.num 4]),
    ("idle_time", [Cell.num 1, Cell.num 2, Cell.num 3, Cell.num 4]),
    ("no_of_workers", [Cell.num 1, Cell.num 2, Cell.num 3, Cell.num 4]),
    ("no_of_style_change", [Cell.num 1, Cell.num 2, Cell.num 3, Cell.num 4]),
    ("incentive", [Cell.num 1, Cell.num 2, Cell.num 2, Cell.num 1])]⟩

/-! ## Theorems -/

/-- **C10** — `RawDataAccessTool._load_data` and
`OptimizedCSVAnalysisTool._load_data` are equivalent: they read the same
path `knowledge/garments_worker_productivity.csv`, apply the same
datetime conversion to the `date` column, and for every filesystem
state return the same result (equal dataframes on success, `None` under
the same failure conditions).  The two method bodies are textually
identical in the source, so the embedded definitions are definitionally
equal. -/
theorem c10_load_data_equivalence :
    RawDataAccessTool.csv_path = OptimizedCSVAnalysisTool.csv_path ∧
    ∀ fs : FileSystem,
      RawDataAccessTool.load_data fs = OptimizedCSVAnalysisTool.load_data fs :=
  ⟨rfl, fun _ => rfl⟩

/-- **C7** — the dataset is loaded fresh on every `_run` call: a call
returns the tool object unchanged (no dataframe or result is stored on
it), its output is a function of the filesystem state and the argument
alone, the output of a second call after any first call is exactly the
run on the filesystem state seen by that second call, and a change of
the file between calls changes the output (witnessed by an absent file
versus a readable one). -/
theorem c7_fresh_load_no_cache (t : RawToolState) (u : OptToolState)
    (fs fs₂ : FileSystem) (data_format analysis_type : String) :
    (rawToolCall t fs data_format).2 = t ∧
    (optToolCall u fs analysis_type).2 = u ∧
    (rawToolCall t fs data_format).1 = RawDataAccessTool.run fs data_format ∧
    (optToolCall u fs analysis_type).1 = OptimizedCSVAnalysisTool.run fs analysis_type ∧
    (rawToolCall (rawToolCall t fs data_format).2 fs₂ data_format).1 =
      RawDataAccessTool.run fs₂ data_format ∧
    (optToolCall (optToolCall u fs analysis_type).2 fs₂ analysis_type).1 =
      OptimizedCSVAnalysisTool.run fs₂ analysis_type ∧
    RawDataAccessTool.run (fun _ => FileContent.absent) "sample" ≠
      RawDataAccessTool.run fsOneRow "sample" ∧
    OptimizedCSVAnalysisTool.run (fun _ => FileContent.absent) "overview" ≠
      OptimizedCSVAnalysisTool.run fsOneRow "overview" :=
  ⟨rfl, rfl, rfl, rfl, rfl, rfl, by decide, by decide⟩

/-- **C2** — an unrecognized `data_format` falls back to the sample
view and an unrecognized `analysis_type` falls back to the overview:
the dispatch (and hence the whole `_run`) returns exactly the same
report as for `"sample"` / `"overview"` respectively. -/
theorem c2_unrecognized_fallback (data_format analysis_type : String)
    (hf : data_format ∉ (["sample", "full", "columns", "summary"] : List String))
    (ha : analysis_type ∉
      (["overview", "productivity_stats", "department_analysis", "time_trends",
        "correlation_analysis"] : List String)) :
    (∀ df : DataFrame,
      RawDataAccessTool.dispatch df data_format = RawDataAccessTool.dispatch df "sample") ∧
    (∀ df : DataFrame,
      OptimizedCSVAnalysisTool.dispatchState df analysis_type =
        OptimizedCSVAnalysisTool.dispatchState df "overview") ∧
    (∀ fs : FileSystem,
      RawDataAccessTool.run fs data_format = RawDataAccessTool.run fs "sample") ∧
    (∀ fs : FileSystem,
      OptimizedCSVAnalysisTool.run fs analysis_type =
        OptimizedCSVAnalysisTool.run fs "overview") := by
  have h1 : data_format ≠ "columns" := by rintro rfl; exact hf (by decide)
  have h2 : data_format ≠ "sample" := by rintro rfl; exact hf (by decide)
  have h3 : data_format ≠ "full" := by rintro rfl; exact hf (by decide)
  have h4 : data_format ≠ "summary" := by rintro rfl; exact hf (by decide)
  have a1 : analysis_type ≠ "overview" := by rintro rfl; exact ha (by decide)
  have a2 : analysis_type ≠ "productivity_stats" := by rintro rfl; exact ha (by decide)
  have a3 : analysis_type ≠ "department_analysis" := by rintro rfl; exact ha (by decide)
  have a4 : analysis_type ≠ "time_trends" := by rintro rfl; exact ha (by decide)
  have a5 : analysis_type ≠ "correlation_analysis" := by rintro rfl; exact ha (by decide)
  have hraw : ∀ df : DataFrame,
      RawDataAccessTool.dispatch df data_format = RawDataAccessTool.dispatch df "sample" := by
    intro df
    simp [RawDataAccessTool.dispatch, h1, h2, h3, h4]
  have hopt : ∀ df : DataFrame,
      OptimizedCSVAnalysisTool.dispatchState df analysis_type =
        OptimizedCSVAnalysisTool.dispatchState df "overview" := by
    intro df
    simp [OptimizedCSVAnalysisTool.dispatchState, a1, a2, a3, a4, a5]
  refine ⟨hraw, hopt, fun fs => ?_, fun fs => ?_⟩
  · cases hload : RawDataAccessTool.load_data fs with
    | none => simp [RawDataAccessTool.run, hload]
    | some df => simp [RawDataAccessTool.run, hload, hraw df]
  · cases hload : OptimizedCSVAnalysisTool.load_data fs with
    | none => simp [OptimizedCSVAnalysisTool.run, hload]
    | some df => simp [OptimizedCSVAnalysisTool.run, hload, hopt df]

/-- Witness for C2 at the unrecognized arguments `"foo"`/`"bar"`. -/
theorem c2_unrecognized_fallback_witness :
    RawDataAccessTool.run fsOneRow "foo" = RawDataAccessTool.run fsOneRow "sample" ∧
    OptimizedCSVAnalysisTool.run fsOneRow "bar" =
      OptimizedCSVAnalysisTool.run fsOneRow "overview" := by
  have h := c2_unrecognized_fallback "foo" "bar" (by decide) (by decide)
  exact ⟨h.2.2.1 fsOneRow, h.2.2.2 fsOneRow⟩

/-- **C1** — both `_run`s are total functions into message strings (the
embedding needs no partiality: every Python exception of the helper
bodies is modelled in `Except` and caught).  When the file is absent or
unreadable, load returns `None` and both tools answer exactly
`Erro: Não foi possível carregar o dataset de produtividade.`; when the
load succeeds the answer is either the dispatched report or the caught
exception formatted by the corresponding `except` clause. -/
theorem c1_degrade_gracefully (fs : FileSystem) (data_format analysis_type : String) :
    ((fs RawDataAccessTool.csv_path = FileContent.absent ∨
      fs RawDataAccessTool.csv_path = FileContent.unreadable) →
      RawDataAccessTool.load_data fs = none ∧
      OptimizedCSVAnalysisTool.load_data fs = none) ∧
    (RawDataAccessTool.load_data fs = none →
      RawDataAccessTool.run fs data_format = RawDataAccessTool.loadError) ∧
    (OptimizedCSVAnalysisTool.load_data fs = none →
      OptimizedCSVAnalysisTool.run fs analysis_type = RawDataAccessTool.loadError) ∧
    (∀ df, RawDataAccessTool.load_data fs = some df →
      (∃ s, RawDataAccessTool.dispatch df data_format = Except.ok s ∧
            RawDataAccessTool.run fs data_format = s) ∨
      (∃ e, RawDataAccessTool.dispatch df data_format = Except.error e ∧
            RawDataAccessTool.run fs data_format = "Erro ao acessar dados: " ++ e)) ∧
    (∀ df, OptimizedCSVAnalysisTool.load_data fs = some df →
      (∃ s, (OptimizedCSVAnalysisTool.dispatchState df analysis_type).1 = Except.ok s ∧
            OptimizedCSVAnalysisTool.run fs analysis_type = s) ∨
      (∃ e, (OptimizedCSVAnalysisTool.dispatchState df analysis_type).1 = Except.error e ∧
            OptimizedCSVAnalysisTool.run fs analysis_type = "Erro na análise: " ++ e)) := by
  refine ⟨?_, ?_, ?_, ?_, ?_⟩
  · intro h
    simp only [RawDataAccessTool.csv_path] at h
    rcases h with h | h <;>
      simp [RawDataAccessTool.load_data, OptimizedCSVAnalysisTool.load_data,
        RawDataAccessTool.csv_path, OptimizedCSVAnalysisTool.csv_path, h]
  · intro h
    simp [RawDataAccessTool.run, h]
  · intro h
    simp [OptimizedCSVAnalysisTool.run, h, RawDataAccessTool.loadError]
  · intro df h
    cases hd : RawDataAccessTool.dispatch df data_format with
    | ok s => exact Or.inl ⟨s, rfl, by simp [RawDataAccessTool.run, h, hd]⟩
    | error e => exact Or.inr ⟨e, rfl, by simp [RawDataAccessTool.run, h, hd]⟩
  · intro df h
    cases hd : (OptimizedCSVAnalysisTool.dispatchState df analysis_type).1 with
    | ok s => exact Or.inl ⟨s, rfl, by simp [OptimizedCSVAnalysisTool.run, h, hd]⟩
    | error e => exact Or.inr ⟨e, rfl, by simp [OptimizedCSVAnalysisTool.run, h, hd]⟩

/-- Witness for C1: an absent file yields the load-error message for
every argument value tried; a loadable one-row file yields the sample
report, and its overview — whose table lacks `targeted_productivity` —
yields the caught-exception message. -/
theorem c1_degrade_gracefully_witness :
    RawDataAccessTool.run (fun _ => FileContent.absent) "columns" =
      RawDataAccessTool.loadError ∧
    OptimizedCSVAnalysisTool.run (fun _ => FileContent.absent) "correlation_analysis" =
      RawDataAccessTool.loadError ∧
    RawDataAccessTool.run fsOneRow "sample" =
      RawDataAccessTool.get_sample_data dfOneRow ∧
    OptimizedCSVAnalysisTool.run fsOneRow "overview" =
      "Erro na análise: " ++ "\x27targeted_productivity\x27" := by
  have habs := c1_degrade_gracefully (fun _ => FileContent.absent) "columns"
    "correlation_analysis"
  have hnone := habs.1 (Or.inl rfl)
  have hone := c1_degrade_gracefully fsOneRow "sample" "overview"
  have hload : RawDataAccessTool.load_data fsOneRow = some dfOneRow := by decide
  have hloadO : OptimizedCSVAnalysisTool.load_data fsOneRow = some dfOneRow := by decide
  refine ⟨habs.2.1 hnone.1, habs.2.2.1 hnone.2, ?_, ?_⟩
  · rcases hone.2.2.2.1 dfOneRow hload with ⟨s, hs, hr⟩ | ⟨e, he, _⟩
    · have hd : RawDataAccessTool.dispatch dfOneRow "sample" =
          Except.ok (RawDataAccessTool.get_sample_data dfOneRow) := rfl
      rw [hd] at hs
      injection hs with hs'
      rw [hr, ← hs']
    · have hd : RawDataAccessTool.dispatch dfOneRow "sample" =
          Except.ok (RawDataAccessTool.get_sample_data dfOneRow) := rfl
      rw [hd] at he
      exact absurd he (by simp)
  · rcases hone.2.2.2.2 dfOneRow hloadO with ⟨s, hs, _⟩ | ⟨e, he, hr⟩
    · have hd : (OptimizedCSVAnalysisTool.dispatchState dfOneRow "overview").1 =
          Except.error "\x27targeted_productivity\x27" := rfl
      rw [hd] at hs
      exact absurd hs (by simp)
    · have hd : (OptimizedCSVAnalysisTool.dispatchState dfOneRow "overview").1 =
          Except.error "\x27targeted_productivity\x27" := rfl
      rw [hd] at he
      injection he with he'
      rw [hr, he']

/-- **C6** — the spec promises that the overview of a zero-record table
reports zero records without raising; the code does not deliver it.  On
the header-only CSV the load succeeds with a zero-row frame, but
`_get_overview` evaluates `df['date'].min().strftime(...)` where the
`min` of the empty datetime column is `NaT`, whose `strftime` raises
`ValueError`; `_run` catches it and returns the error message instead
of a zero-record report. -/
theorem c6_overview_empty_table :
    OptimizedCSVAnalysisTool.load_data fsEmptyCsv = some emptyRawDf ∧
    emptyRawDf.nRows = 0 ∧
    OptimizedCSVAnalysisTool.get_overview emptyRawDf =
      Except.error "NaTType does not support strftime" ∧
    OptimizedCSVAnalysisTool.run fsEmptyCsv "overview" =
      "Erro na análise: NaTType does not support strftime" := by
  refine ⟨by decide, rfl, ?_, by decide⟩
  rfl

/-- Field extractor used to separate the timestamp of the `/` and
`/health` response objects. -/
def jsonTimestampOf : Json → String
  | .obj (_ :: _ :: (_, .str ts) :: _) => ts
  | _ => ""

/-- **C9 (counterexample)** — `GET /` and `GET /health` do not return
identical bodies on any two calls: both embed
`datetime.utcnow().isoformat()`, so calls one second apart differ. -/
theorem c9_counterexample_timestamp :
    Routes.root ⟨2025, 10, 12, 8, 30, 0, 0⟩ ≠ Routes.root ⟨2025, 10, 12, 8, 30, 1, 0⟩ ∧
    Routes.health_check ⟨2025, 10, 12, 8, 30, 0, 0⟩ ≠
      Routes.health_check ⟨2025, 10, 12, 8, 30, 1, 0⟩ := by
  constructor <;>
    exact fun h => absurd (congrArg jsonTimestampOf h) (by decide)

/-- **C9 (amended)** — the placeholder REST bodies are static except
for the timestamp field: `GET /llm/models` and `POST /llm/chat` return
identical bodies on any two calls, and two calls of `GET /` or
`GET /health` return identical bodies exactly when their formatted
timestamps coincide. -/
theorem c9_static_json (t₁ t₂ : UtcTime) :
    Routes.list_models t₁ = Routes.list_models t₂ ∧
    Routes.chat_with_llm t₁ = Routes.chat_with_llm t₂ ∧
    (t₁.isoformat = t₂.isoformat →
      Routes.root t₁ = Routes.root t₂ ∧
      Routes.health_check t₁ = Routes.health_check t₂) := by
  refine ⟨rfl, rfl, fun h => ⟨?_, ?_⟩⟩ <;>
    simp [Routes.root, Routes.health_check, h]

/-- Witness for C9 (amended) at two equal clock readings. -/
theorem c9_static_json_witness :
    Routes.root ⟨2025, 1, 1, 0, 0, 0, 0⟩ = Routes.root ⟨2025, 1, 1, 0, 0, 0, 0⟩ ∧
    Routes.health_check ⟨2025, 1, 1, 0, 0, 0, 0⟩ =
      Routes.health_check ⟨2025, 1, 1, 0, 0, 0, 0⟩ :=
  (c9_static_json ⟨2025, 1, 1, 0, 0, 0, 0⟩ ⟨2025, 1, 1, 0, 0, 0, 0⟩).2.2 rfl

/-- Replacing the cells of one column leaves lookups of every other
column unchanged. -/
lemma find?_map_replace (l : List (String × List Cell)) (c c' : String)
    (vals : List Cell) (h : c' ≠ c) :
    (l.map (fun p => if p.1 = c then (p.1, vals) else p)).find? (fun p => p.1 = c') =
      l.find? (fun p => p.1 = c') := by
  induction l with
  | nil => rfl
  | cons p ps ih =>
    by_cases hq : p.1 = c'
    · have hp : ¬(p.1 = c) := fun e => h (hq.symm.trans e)
      rw [List.map_cons, if_neg hp, List.find?_cons_of_pos _ (by simp [hq]),
        List.find?_cons_of_pos _ (by simp [hq])]
    · by_cases hp : p.1 = c
      · rw [List.map_cons, if_pos hp, List.find?_cons_of_neg _ (by simp [hq]),
          List.find?_cons_of_neg _ (by simp [hq])]
        exact ih
      · rw [List.map_cons, if_neg hp, List.find?_cons_of_neg _ (by simp [hq]),
          List.find?_cons_of_neg _ (by simp [hq])]
        exact ih

/-- Appending a fresh column leaves lookups of every other column
unchanged. -/
lemma find?_append_other (l : List (String × List Cell)) (c c' : String)
    (vals : List Cell) (h : c' ≠ c) :
    (l ++ [(c, vals)]).find? (fun p => p.1 = c') = l.find? (fun p => p.1 = c') := by
  have hne : ¬(c = c') := fun e => h e.symm
  induction l with
  | nil =>
    rw [List.nil_append, List.find?_cons_of_neg _ (by simp [hne])]
  | cons p ps ih =>
    by_cases hq : p.1 = c'
    · rw [List.cons_append, List.find?_cons_of_pos _ (by simp [hq]),
        List.find?_cons_of_pos _ (by simp [hq])]
    · rw [List.cons_append, List.find?_cons_of_neg _ (by simp [hq]),
        List.find?_cons_of_neg _ (by simp [hq])]
      exact ih

/-- `df[c] = vals` does not change any column other than `c`. -/
lemma getCol?_setCol_ne (df : DataFrame) (c c' : String) (vals : List Cell)
    (h : c' ≠ c) : (df.setCol c vals).getCol? c' = df.getCol? c' := by
  unfold DataFrame.setCol DataFrame.getCol?
  by_cases hf : (df.cols.find? (fun p => p.1 = c)).isSome
  · rw [if_pos hf]
    exact congrArg (Option.map Prod.snd) (find?_map_replace df.cols c c' vals h)
  · rw [if_neg hf]
    exact congrArg (Option.map Prod.snd) (find?_append_other df.cols c c' vals h)

/-- A successful pair of `_get_time_trends` column assignments yields
exactly the input frame with `month` and `day_of_week` set. -/
lemma withTimeCols_ok_shape (df df₂ : DataFrame)
    (h : OptimizedCSVAnalysisTool.withTimeCols df = .ok df₂) :
    ∃ m d, df₂ = (df.setCol "month" m).setCol "day_of_week" d := by
  unfold OptimizedCSVAnalysisTool.withTimeCols at h
  cases hd : getColE df "date" with
  | error e => rw [hd] at h; exact absurd h (by simp)
  | ok dateCol =>
    rw [hd] at h
    by_cases hc : dateCol.all (fun c => c.isDateC || c.isNa)
    · simp only [hc, if_true, Except.ok.injEq] at h
      exact ⟨_, _, h.symm⟩
    · simp [hc] at h

/-- **C5 (counterexample)** — `time_trends` is not a pure function of
the table: on a loadable one-row frame the dataframe left behind by the
dispatch differs from the input, having gained the derived columns
`month` and `day_of_week`. -/
theorem c5_counterexample_time_trends_mutates :
    (OptimizedCSVAnalysisTool.dispatchState dfOneRow "time_trends").2 ≠ dfOneRow ∧
    ((OptimizedCSVAnalysisTool.dispatchState dfOneRow "time_trends").2).colNames =
      ["date", "quarter", "actual_productivity", "month", "day_of_week"] := by
  constructor
  · decide
  · rfl

/-- **C5 (amended)** — every analysis path except `time_trends` leaves
the loaded dataframe unchanged; the `time_trends` path adds the derived
columns `month` and `day_of_week` (overwriting columns of those two
names if present) but leaves every other column — names and cell
values — unchanged.  The mutation never persists: the dataframe is
reloaded on each call (C7). -/
theorem c5_no_mutation_except_time_trends (df : DataFrame) (analysis_type : String) :
    (analysis_type ≠ "time_trends" →
      (OptimizedCSVAnalysisTool.dispatchState df analysis_type).2 = df) ∧
    (∀ c, c ≠ "month" → c ≠ "day_of_week" →
      ((OptimizedCSVAnalysisTool.dispatchState df analysis_type).2).getCol? c =
        df.getCol? c) := by
  constructor
  · intro hne
    unfold OptimizedCSVAnalysisTool.dispatchState
    split_ifs <;> rfl
  · intro c hm hd
    unfold OptimizedCSVAnalysisTool.dispatchState
    split_ifs with h1 h2 h3 h4 h5
    · rfl
    · rfl
    · rfl
    · unfold OptimizedCSVAnalysisTool.get_time_trends_state
      cases hw : OptimizedCSVAnalysisTool.withTimeCols df with
      | error e => rfl
      | ok df₂ =>
        obtain ⟨m, d, rfl⟩ := withTimeCols_ok_shape df df₂ hw
        rw [getCol?_setCol_ne _ _ _ _ hd, getCol?_setCol_ne _ _ _ _ hm]
    · rfl
    · rfl

lemma getD_range_map {α : Type} (f : Nat → α) (n i : Nat) (h : i < n) (d : α) :
    ((List.range n).map f).getD i d = f i := by
  rw [List.getD_eq_getElem?_getD, List.getElem?_map, List.getElem?_range h]
  rfl

lemma getD_take {α : Type} (l : List α) (n i : Nat) (h : i < n) (d : α) :
    (l.take n).getD i d = l.getD i d := by
  rw [List.getD_eq_getElem?_getD, List.getD_eq_getElem?_getD, List.getElem?_take,
    if_pos h]

/-- `df.head n` has `min n (len df)` rows. -/
lemma nRows_head (df : DataFrame) (n : Nat) :
    (df.head n).nRows = min n df.nRows := by
  unfold DataFrame.head DataFrame.nRows
  cases df.cols with
  | nil => simp
  | cons p ps => simp [List.length_take]

/-- Rows of a `head`-truncated frame render like the original rows. -/
lemma rowLine_head (df : DataFrame) (n i : Nat) (h : i < n) :
    rowLine (df.head n) i = rowLine df i := by
  unfold rowLine rowCells DataFrame.head
  have : (df.cols.map (fun p => (p.1, p.2.take n))).map (fun p => p.2.getD i Cell.na) =
      df.cols.map (fun p => p.2.getD i Cell.na) := by
    rw [List.map_map]
    exact List.map_congr_left (fun p _ => getD_take p.2 n i h Cell.na)
  rw [this]

lemma occursIn_appendL {needle hay : String} (s : String) (h : occursIn needle hay) :
    occursIn needle (s ++ hay) := by
  obtain ⟨a, b, e⟩ := h
  exact ⟨s ++ a, b, by rw [e]; simp [String.append_assoc]⟩

lemma occursIn_appendR {needle hay : String} (s : String) (h : occursIn needle hay) :
    occursIn needle (hay ++ s) := by
  obtain ⟨a, b, e⟩ := h
  exact ⟨a, b ++ s, by rw [e]; simp [String.append_assoc]⟩

/-- Every line occurs in the accumulated dump. -/
lemma occursIn_concatLines (lines : List String) (i : Nat) (h : i < lines.length) :
    occursIn (lines.getD i "" ++ "\n") (concatLines lines) := by
  induction lines generalizing i with
  | nil => simp at h
  | cons x xs ih =>
    cases i with
    | zero =>
      exact ⟨"", concatLines xs, by simp [concatLines, String.append_assoc]⟩
    | succ j =>
      have hj : j < xs.length := by simpa using h
      obtain ⟨a, b, e⟩ := ih j hj
      refine ⟨x ++ "\n" ++ a, b, ?_⟩
      rw [List.getD_cons_succ]
      show x ++ "\n" ++ concatLines xs = _
      rw [e]
      simp [String.append_assoc]

/-- **C3** — the full dump is rejected with an explicit warning above
500 rows: the warning depends only on the record count (so it contains
no data of any row), while at or below 500 rows the dump carries every
row of the table — one `Linha` line per row, each occurring verbatim in
the output. -/
theorem c3_full_dump_threshold (df : DataFrame) :
    (500 < df.nRows →
      RawDataAccessTool.get_full_data df = RawDataAccessTool.fullWarning df.nRows ∧
      ∀ df₂ : DataFrame, df₂.nRows = df.nRows →
        RawDataAccessTool.get_full_data df₂ = RawDataAccessTool.get_full_data df) ∧
    (df.nRows ≤ 500 →
      (RawDataAccessTool.fullRowLines df).length = df.nRows ∧
      (∀ i, i < df.nRows →
        (RawDataAccessTool.fullRowLines df).getD i "" = rowLine df i) ∧
      (∀ i, i < df.nRows →
        occursIn (rowLine df i ++ "\n") (RawDataAccessTool.get_full_data df))) := by
  constructor
  · intro hgt
    have h1 : RawDataAccessTool.get_full_data df = RawDataAccessTool.fullWarning df.nRows := by
      unfold RawDataAccessTool.get_full_data
      rw [if_pos hgt]
    refine ⟨h1, fun df₂ h₂ => ?_⟩
    have h2 : RawDataAccessTool.get_full_data df₂ = RawDataAccessTool.fullWarning df₂.nRows := by
      unfold RawDataAccessTool.get_full_data
      rw [if_pos (h₂ ▸ hgt)]
    rw [h1, h2, h₂]
  · intro hle
    have hlen : (RawDataAccessTool.fullRowLines df).length = df.nRows := by
      unfold RawDataAccessTool.fullRowLines
      simp
    have hget : ∀ i, i < df.nRows →
        (RawDataAccessTool.fullRowLines df).getD i "" = rowLine df i := by
      intro i hi
      unfold RawDataAccessTool.fullRowLines
      exact getD_range_map (rowLine df) df.nRows i hi ""
    refine ⟨hlen, hget, fun i hi => ?_⟩
    have hocc := occursIn_concatLines (RawDataAccessTool.fullRowLines df) i
      (by rw [hlen]; exact hi)
    rw [hget i hi] at hocc
    unfold RawDataAccessTool.get_full_data
    rw [if_neg (by omega)]
    simp only [String.append_assoc]
    exact occursIn_appendL _ (occursIn_appendL _ (occursIn_appendL _
      (occursIn_appendL _ (occursIn_appendL _ (occursIn_appendL _ hocc)))))

/-- Witness for C3 at a 501-row frame (warning) and a 1-row frame
(complete dump). -/
theorem c3_full_dump_threshold_witness :
    RawDataAccessTool.get_full_data df501 = RawDataAccessTool.fullWarning df501.nRows ∧
    occursIn (rowLine dfTiny 0 ++ "\n") (RawDataAccessTool.get_full_data dfTiny) := by
  have h501 : 500 < df501.nRows := by
    have : df501.nRows = (List.replicate 501 (Cell.num 0)).length := rfl
    rw [this, List.length_replicate]
    omega
  have h1 := (c3_full_dump_threshold df501).1 h501
  have h2 := (c3_full_dump_threshold dfTiny).2 (by decide)
  exact ⟨h1.1, h2.2.2 0 (by decide)⟩

/-- **C4** — the sample view lists exactly the first
`min 50 (len df)` rows of the table, in table order, and no others:
the emitted `Linha` lines are precisely the renderings of rows
`0 … min 50 (len df) - 1` of the original frame, and each occurs
verbatim in the output. -/
theorem c4_sample_first_rows (df : DataFrame) :
    (RawDataAccessTool.sampleRowLines df).length = min 50 df.nRows ∧
    (∀ i, i < min 50 df.nRows →
      (RawDataAccessTool.sampleRowLines df).getD i "" = rowLine df i) ∧
    (∀ i, i < min 50 df.nRows →
      occursIn (rowLine df i ++ "\n") (RawDataAccessTool.get_sample_data df)) := by
  have hlen : (RawDataAccessTool.sampleRowLines df).length = min 50 df.nRows := by
    unfold RawDataAccessTool.sampleRowLines
    simp [nRows_head]
  have hget : ∀ i, i < min 50 df.nRows →
      (RawDataAccessTool.sampleRowLines df).getD i "" = rowLine df i := by
    intro i hi
    unfold RawDataAccessTool.sampleRowLines
    rw [getD_range_map _ _ _ (by rw [nRows_head]; exact hi) ""]
    exact rowLine_head df 50 i (lt_of_lt_of_le hi (min_le_left _ _))
  refine ⟨hlen, hget, fun i hi => ?_⟩
  have hocc := occursIn_concatLines (RawDataAccessTool.sampleRowLines df) i
    (by rw [hlen]; exact hi)
  rw [hget i hi] at hocc
  unfold RawDataAccessTool.get_sample_data
  simp only [String.append_assoc]
  exact occursIn_appendL _ (occursIn_appendL _ (occursIn_appendL _
    (occursIn_appendL _ (occursIn_appendL _ (occursIn_appendL _
      (occursIn_appendR _ hocc))))))

/-- Witness for C4 on the concrete one-row frame. -/
theorem c4_sample_first_rows_witness :
    (RawDataAccessTool.sampleRowLines dfOneRow).getD 0 "" = rowLine dfOneRow 0 ∧
    occursIn (rowLine dfOneRow 0 ++ "\n") (RawDataAccessTool.get_sample_data dfOneRow) := by
  have h := c4_sample_first_rows dfOneRow
  exact ⟨h.2.1 0 (by decide), h.2.2 0 (by decide)⟩

/-- Witness for C5 (amended): a non-mutating path and an untouched
column of the mutating path, on the concrete one-row frame. -/
theorem c5_no_mutation_witness :
    (OptimizedCSVAnalysisTool.dispatchState dfOneRow "overview").2 = dfOneRow ∧
    ((OptimizedCSVAnalysisTool.dispatchState dfOneRow "time_trends").2).getCol? "quarter" =
      dfOneRow.getCol? "quarter" := by
  have h1 := c5_no_mutation_except_time_trends dfOneRow "overview"
  have h2 := c5_no_mutation_except_time_trends dfOneRow "time_trends"
  exact ⟨h1.1 (by decide), h2.2 "quarter" (by decide) (by decide)⟩

/-! ### The Pearson value behind the encoded correlation triples -/

/-- The real value of an encoded correlation triple:
`corr = sxy / √(sxx·syy)` (the Pearson coefficient computed by
`Series.corr`). -/
noncomputable def realCorr (sxy sxx syy : ℚ) : ℝ :=
  (sxy : ℝ) / Real.sqrt ((sxx : ℝ) * (syy : ℝ))

lemma realCorr_pos_iff (sxy sxx syy : ℚ) (hx : 0 < sxx) (hy : 0 < syy) :
    0 < realCorr sxy sxx syy ↔ 0 < sxy := by
  unfold realCorr
  have hD : (0 : ℝ) < (sxx : ℝ) * (syy : ℝ) := by positivity
  have hs : 0 < Real.sqrt ((sxx : ℝ) * (syy : ℝ)) := Real.sqrt_pos.mpr hD
  rw [lt_div_iff₀ hs, zero_mul]
  exact ⟨fun hlt => by exact_mod_cast hlt, fun hlt => by exact_mod_cast hlt⟩

lemma realCorr_abs_gt_iff (c sxy sxx syy : ℚ) (hx : 0 < sxx) (hy : 0 < syy)
    (hc : 0 ≤ c) :
    ((c : ℝ) < |realCorr sxy sxx syy|) ↔ c ^ 2 * (sxx * syy) < sxy ^ 2 := by
  unfold realCorr
  have hD : (0 : ℝ) < (sxx : ℝ) * (syy : ℝ) := by positivity
  have hs : 0 < Real.sqrt ((sxx : ℝ) * (syy : ℝ)) := Real.sqrt_pos.mpr hD
  have hcr : (0 : ℝ) ≤ (c : ℝ) := by exact_mod_cast hc
  have key : ((c : ℝ) * Real.sqrt ((sxx : ℝ) * (syy : ℝ)) < |(sxy : ℝ)|) ↔
      ((c : ℝ) ^ 2 * ((sxx : ℝ) * (syy : ℝ)) < (sxy : ℝ) ^ 2) := by
    rw [← sq_abs (sxy : ℝ),
      ← pow_lt_pow_iff_left₀ (by positivity) (abs_nonneg _) two_ne_zero,
      mul_pow, Real.sq_sqrt hD.le]
  rw [abs_div, abs_of_nonneg (Real.sqrt_nonneg _), lt_div_iff₀ hs, key]
  exact ⟨fun hlt => by exact_mod_cast hlt, fun hlt => by exact_mod_cast hlt⟩

/-- The encoded `corr > 0` test decides the sign of the real Pearson
value. -/
lemma corrGtZero_iff_real (sxy sxx syy : ℚ) (hx : 0 < sxx) (hy : 0 < syy) :
    corrGtZero (some (sxy, sxx, syy)) = true ↔ 0 < realCorr sxy sxx syy := by
  rw [realCorr_pos_iff sxy sxx syy hx hy]
  unfold corrGtZero
  simp

/-- The encoded `abs(corr) > c` test decides the real threshold
comparison. -/
lemma corrAbsGt_iff_real (c sxy sxx syy : ℚ) (hx : 0 < sxx) (hy : 0 < syy)
    (hc : 0 ≤ c) :
    corrAbsGt c (some (sxy, sxx, syy)) = true ↔
      (c : ℝ) < |realCorr sxy sxx syy| := by
  rw [realCorr_abs_gt_iff c sxy sxx syy hx hy hc]
  unfold corrAbsGt
  simp

lemma mem_insertCorrDesc (p q : String × Option (ℚ × ℚ × ℚ))
    (l : List (String × Option (ℚ × ℚ × ℚ))) :
    q ∈ insertCorrDesc p l ↔ q = p ∨ q ∈ l := by
  induction l with
  | nil => simp [insertCorrDesc]
  | cons r rs ih =>
    unfold insertCorrDesc
    by_cases hc : corrGtSort r.2 p.2
    · simp only [hc, if_true, List.mem_cons, ih]
      tauto
    · simp [hc]

/-- Sorting the correlation series permutes it: membership is
preserved. -/
lemma mem_sortCorrDesc (q : String × Option (ℚ × ℚ × ℚ))
    (l : List (String × Option (ℚ × ℚ × ℚ))) :
    q ∈ sortCorrDesc l ↔ q ∈ l := by
  induction l with
  | nil => simp [sortCorrDesc]
  | cons p ps ih =>
    unfold sortCorrDesc
    rw [mem_insertCorrDesc]
    simp [ih]

/-- `mapM` over column names with a name-preserving lookup keeps the
name list. -/
lemma mapM_fst_of (f : String → Except String (String × List Cell))
    (hf : ∀ c p, f c = Except.ok p → p.1 = c) :
    ∀ (l : List String) (cols : List (String × List Cell)),
      l.mapM f = Except.ok cols → cols.map Prod.fst = l := by
  intro l
  induction l with
  | nil =>
    intro cols h
    simp only [List.mapM_nil, pure, Except.pure, Except.ok.injEq] at h
    simp [← h]
  | cons c cs ih =>
    intro cols h
    rw [List.mapM_cons] at h
    cases hc : f c with
    | error e => rw [hc] at h; simp [Bind.bind, Except.bind] at h
    | ok p =>
      rw [hc] at h
      cases hcs : cs.mapM f with
      | error e => rw [hcs] at h; simp [Bind.bind, Except.bind] at h
      | ok ps =>
        rw [hcs] at h
        simp only [Bind.bind, Except.bind, pure, Except.pure, Except.ok.injEq] at h
        rw [← h]
        simp [hf c p hc, ih ps hcs]

/-- The correlation series ranges over exactly the eight hard-coded
numeric columns, in order. -/
lemma corrSeriesE_fst (df : DataFrame) (pairs : List (String × Option (ℚ × ℚ × ℚ)))
    (h : OptimizedCSVAnalysisTool.corrSeriesE df = Except.ok pairs) :
    pairs.map Prod.fst = OptimizedCSVAnalysisTool.numerical_cols := by
  unfold OptimizedCSVAnalysisTool.corrSeriesE at h
  cases hm : OptimizedCSVAnalysisTool.numerical_cols.mapM
      (fun c =>
        match df.getCol? c with
        | none => Except.error ("[\x27" ++ c ++ "\x27] not in index")
        | some cells => Except.ok (c, cells)) with
  | error e => rw [hm] at h; simp [Bind.bind, Except.bind] at h
  | ok cols =>
    rw [hm] at h
    simp only [Bind.bind, Except.bind] at h
    cases hfind : cols.find? (fun p => p.1 = "actual_productivity") with
    | none => rw [hfind] at h; simp at h
    | some p =>
      rw [hfind] at h
      simp only [pure, Except.pure, Except.ok.injEq] at h
      have hcols : cols.map Prod.fst = OptimizedCSVAnalysisTool.numerical_cols := by
        refine mapM_fst_of _ ?_ _ _ hm
        intro c q hq
        cases hgc : df.getCol? c with
        | none => rw [hgc] at hq; simp at hq
        | some cells => rw [hgc] at hq; injection hq with hq'; rw [← hq']
      rw [← h, ← hcols, List.map_map]
      rfl

/-- The correlation series of `df8`, fully evaluated. -/
def pairs8 : List (String × Option (ℚ × ℚ × ℚ)) :=
  [("actual_productivity", some (5, 5, 5)),
   ("targeted_productivity", some (5, 5, 5)),
   ("smv", some (5, 5, 5)),
   ("over_time", some (5, 5, 5)),
   ("idle_time", some (5, 5, 5)),
   ("no_of_workers", some (5, 5, 5)),
   ("no_of_style_change", some (5, 5, 5)),
   ("incentive", some (0, 1, 5))]

def col1234 : List Cell := [Cell.num 1, Cell.num 2, Cell.num 3, Cell.num 4]

def colInc : List Cell := [Cell.num 1, Cell.num 2, Cell.num 2, Cell.num 1]

lemma corrPair_col1234 : corrPair col1234 col1234 = some (5, 5, 5) := by
  unfold corrPair numPairs col1234
  norm_num [Cell.toNum?, List.zip, List.zipWith, List.filterMap]

lemma corrPair_colInc : corrPair colInc col1234 = some (0, 1, 5) := by
  unfold corrPair numPairs col1234 colInc
  norm_num [Cell.toNum?, List.zip, List.zipWith, List.filterMap]

lemma corrSeriesE_df8 : OptimizedCSVAnalysisTool.corrSeriesE df8 = Except.ok pairs8 := by
  have hstep : OptimizedCSVAnalysisTool.corrSeriesE df8 = Except.ok
      [("actual_productivity", corrPair col1234 col1234),
       ("targeted_productivity", corrPair col1234 col1234),
       ("smv", corrPair col1234 col1234),
       ("over_time", corrPair col1234 col1234),
       ("idle_time", corrPair col1234 col1234),
       ("no_of_workers", corrPair col1234 col1234),
       ("no_of_style_change", corrPair col1234 col1234),
       ("incentive", corrPair colInc col1234)] := rfl
  rw [hstep, corrPair_col1234, corrPair_colInc]
  rfl

/-- **C8 (counterexample)** — the report does not list a classification
for every numeric field: on `df8` the numeric column `incentive` has
correlation 0 with `actual_productivity` (its covariance vanishes), so
the `abs(corr) > 0.1` filter of the source drops it and no entry for it
appears among the listed variables. -/
theorem c8_counterexample_incentive_unlisted :
    OptimizedCSVAnalysisTool.corrSeriesE df8 = Except.ok pairs8 ∧
    isNumericDtype (df8.getColD "incentive") = true ∧
    "incentive" ∈ OptimizedCSVAnalysisTool.numerical_cols ∧
    "incentive" ∉
      ((OptimizedCSVAnalysisTool.strongPairs (sortCorrDesc pairs8)).map Prod.fst) := by
  refine ⟨corrSeriesE_df8, by decide, by decide, ?_⟩
  intro hmem
  rw [List.mem_map] at hmem
  obtain ⟨p, hp, hfst⟩ := hmem
  unfold OptimizedCSVAnalysisTool.strongPairs at hp
  rw [List.mem_filter, mem_sortCorrDesc] at hp
  obtain ⟨hpm, hpred⟩ := hp
  have hp8 : p = ("incentive", some ((0 : ℚ), (1 : ℚ), (5 : ℚ))) := by
    simp only [pairs8, List.mem_cons, List.not_mem_nil, or_false] at hpm
    rcases hpm with rfl | rfl | rfl | rfl | rfl | rfl | rfl | rfl <;>
      first
        | rfl
        | exact absurd hfst (by decide)
  rw [hp8] at hpred
  rw [Bool.and_eq_true] at hpred
  have := hpred.2
  rw [show corrAbsGt (1/10) (some ((0 : ℚ), (1 : ℚ), (5 : ℚ))) =
      decide ((1/10 : ℚ) ^ 2 * (1 * 5) < 0 ^ 2) from rfl] at this
  rw [decide_eq_true_eq] at this
  norm_num at this

section
open Classical

/-- **C8 (amended)** — for every loadable correlation series, a numeric
field appears among the listed correlations exactly when it is not
`actual_productivity` itself and the absolute Pearson correlation with
`actual_productivity` exceeds 0.1; each listed entry classifies the
direction as `positiva` iff the correlation is positive (else
`negativa`) and the strength as `forte` iff its absolute value exceeds
0.5, else `moderada` iff it exceeds 0.3, else `fraca`. -/
theorem c8_correlation_classification (df : DataFrame)
    (pairs : List (String × Option (ℚ × ℚ × ℚ)))
    (h : OptimizedCSVAnalysisTool.corrSeriesE df = Except.ok pairs)
    (v : String) (sxy sxx syy : ℚ)
    (hv : (v, some (sxy, sxx, syy)) ∈ pairs)
    (hx : 0 < sxx) (hy : 0 < syy) :
    v ∈ OptimizedCSVAnalysisTool.numerical_cols ∧
    ((v, some (sxy, sxx, syy)) ∈
        OptimizedCSVAnalysisTool.strongPairs (sortCorrDesc pairs) ↔
      v ≠ "actual_productivity" ∧ (1/10 : ℝ) < |realCorr sxy sxx syy|) ∧
    OptimizedCSVAnalysisTool.corrEntry v (some (sxy, sxx, syy)) =
      "• " ++ v ++ ": " ++ fmtCorr3 (some (sxy, sxx, syy)) ++ " (correlação " ++
      (if (1/2 : ℝ) < |realCorr sxy sxx syy| then "forte"
       else if (3/10 : ℝ) < |realCorr sxy sxx syy| then "moderada" else "fraca") ++
      " " ++
      (if 0 < realCorr sxy sxx syy then "positiva" else "negativa") ++ ")" := by
  have e1 := corrAbsGt_iff_real (1/2) sxy sxx syy hx hy (by norm_num)
  have e2 := corrAbsGt_iff_real (3/10) sxy sxx syy hx hy (by norm_num)
  have e0 := corrAbsGt_iff_real (1/10) sxy sxx syy hx hy (by norm_num)
  have e3 := corrGtZero_iff_real sxy sxx syy hx hy
  push_cast at e0 e1 e2
  refine ⟨?_, ?_, ?_⟩
  · have hfst := corrSeriesE_fst df pairs h
    rw [← hfst]
    exact List.mem_map_of_mem Prod.fst hv
  · unfold OptimizedCSVAnalysisTool.strongPairs
    rw [List.mem_filter, mem_sortCorrDesc]
    constructor
    · rintro ⟨_, hpred⟩
      rw [Bool.and_eq_true] at hpred
      exact ⟨by simpa using hpred.1, e0.mp hpred.2⟩
    · rintro ⟨h1, h2⟩
      refine ⟨hv, ?_⟩
      rw [Bool.and_eq_true]
      exact ⟨by simpa using h1, e0.mpr h2⟩
  · unfold OptimizedCSVAnalysisTool.corrEntry
    rw [if_congr e1 rfl (if_congr e2 rfl rfl), if_congr e3 rfl rfl]

/-- Witness for C8 (amended) at the concrete series of `df8` and its
`incentive` entry (`corr = 0`). -/
theorem c8_correlation_classification_witness :
    "incentive" ∈ OptimizedCSVAnalysisTool.numerical_cols ∧
    (("incentive", some ((0 : ℚ), (1 : ℚ), (5 : ℚ))) ∈
        OptimizedCSVAnalysisTool.strongPairs (sortCorrDesc pairs8) ↔
      "incentive" ≠ "actual_productivity" ∧ (1/10 : ℝ) < |realCorr 0 1 5|) ∧
    OptimizedCSVAnalysisTool.corrEntry "incentive" (some ((0 : ℚ), (1 : ℚ), (5 : ℚ))) =
      "• " ++ "incentive" ++ ": " ++ fmtCorr3 (some ((0 : ℚ), (1 : ℚ), (5 : ℚ))) ++
      " (correlação " ++
      (if (1/2 : ℝ) < |realCorr 0 1 5| then "forte"
       else if (3/10 : ℝ) < |realCorr 0 1 5| then "moderada" else "fraca") ++
      " " ++
      (if 0 < realCorr 0 1 5 then "positiva" else "negativa") ++ ")" :=
  c8_correlation_classification df8 pairs8 corrSeriesE_df8 "incentive" 0 1 5
    (by decide) (by norm_num) (by norm_num)

end

end LlmResearcher
